import Mathlib

/-!
# Canopy: the trigger/event bus between the TUI and the backend server

A shallow embedding of `internal/ipc` (events, triggers, the `TriggerHandler`
gateway with its mailbox and FIFO of pending responders) and of the dispatch
skeleton of `internal/backend/server.go`.

Conventions of the embedding

* A Go `chan []Event` made with capacity 1 is a channel identifier (`ChanId`);
  the buffer of every such channel lives in `World.resp`, which holds either no
  message or one message.  The request queue `chan Trigger` is `World.tx`.
* The mailbox `map[string]*Event` is a function `String → Option Event`: one
  slot per key, `none` for an absent key.
* `interface{}` payloads are the sum type `Data`, one constructor per dynamic
  type that the program stores in an event.
* A backend handler only ever sends on `trigger.Responder`, never receives and
  never branches on channel state, so a handler run is described by the list
  of values it sends on that channel, in program order (`Exec.sent`), the
  external operations it calls (`Exec.calls`), the server state it leaves, and
  how it ended (`Exec.result`).
* The AWS SDK calls are parameters (`External`): the result of a config load
  is either an error message or a config, the result of `aws sso login` is an
  optional error message.  The process environment and the files read by the
  profile enumeration are the parameter `Os`.
* The UI toolkit is outside: `Render` of a component is taken to return, and
  `QueueUpdateDraw(f)` to run `f`; the dispatch loop is described by the list
  of `Render` calls it makes.
* For the lock discipline each gateway method is also given as the list of
  its steps on `eventLock`, on the shared fields and on channels (`Step`).
-/

namespace Canopy

/-! ## internal/ipc/components.go -/

def COMPONENT_AUTH_MODAL : String := "AuthModal"
def COMPONENT_CHANGE_PROFILE : String := "ChangeProfileView"
def COMPONENT_SET_ACCESS_KEYS : String := "SetAccessKeysView"
def COMPONENT_ERROR_MODAL : String := "ErrorModal"
def COMPONENT_TUI : String := "Tui"
def COMPONENT_HEADER : String := "Header"
def COMPONENT_HELP_MODAL : String := "HelpModal"
def COMPONENT_REFRESH_SSO : String := "SSOReauthenticationModal"
def COMPONENT_QUIT : String := "Quit"

/-! ## internal/ipc/actions.go -/

def ACTION_GET_AUTH_DATA : String := "getAuthData"
def ACTION_REAUTHENTICATE_SSO : String := "reauthenticateSSO"
def ACTION_MUST_REAUTHENTICATE_SSO : String := "mustReauthenticateSSO"
def ACTION_FINISH_REAUTHENTICATE_SSO : String := "finishReauthenticateSSO"
def ACTION_CHANGE_PROFILE : String := "changeProfile"
def ACTION_SHOW_ERROR_MODAL : String := "showErrorModal"
def ACTION_SHOW_ERROR_MESSAGE : String := "showErrorMessage"
def ACTION_SHOW_REAUTHENTICATE_SSO_MODAL : String := "showReauthenticateSSOModal"
def ACTION_END : String := "end"
def ACTION_CLOSE_ERROR_MODAL : String := "closeErrorModal"
def ACTION_CLOSE_REAUTHENTICATE_SSO_MODAL : String := "closeReauthenticateSSOModal"
def ACTION_CLOSE_AUTH_MODAL : String := "closeAuthModal"

/-! ## internal/ipc/events.go -/

structure AWSConfigData where
  Profile : String
  SSORoleName : String
  AccountId : String
  AssumeRoleARN : String
  AccessKeyID : String
  CredentialsSource : String
  Region : String
  deriving DecidableEq, Repr

structure AWSAccessKeysData where
  AccessKeyID : String
  SecretAccessKey : String
  Region : String
  deriving DecidableEq, Repr

structure ChangeProfileData where
  Profile : String
  deriving DecidableEq, Repr

structure AuthenticationData where
  Profile : String
  Region : String
  deriving DecidableEq, Repr

structure ReauthenticateSSOData where
  Profile : String
  deriving DecidableEq, Repr

structure ErrorData where
  Message : String
  deriving DecidableEq, Repr

/-- The dynamic value of an `interface{}` payload.  `awsAccessKeysDataPtr` is the
pointer `&ipc.AWSAccessKeysData{..}` that the Set Access Keys view sends;
`other` stands for a value of any other dynamic type. -/
inductive Data where
  | nil
  | awsConfigData (d : AWSConfigData)
  | awsAccessKeysDataPtr (d : AWSAccessKeysData)
  | changeProfileData (d : ChangeProfileData)
  | authenticationData (d : AuthenticationData)
  | reauthenticateSSOData (d : ReauthenticateSSOData)
  | errorData (d : ErrorData)
  | other (typeName : String)
  deriving DecidableEq, Repr

/-! ## internal/ipc/triggerhandler.go -/

structure Event where
  Component : String
  Action : String
  Data : Data
  deriving DecidableEq, Repr

/-- Identity of a `chan []Event`. -/
abbrev ChanId := Nat

structure Trigger extends Event where
  Responder : ChanId
  deriving DecidableEq, Repr

/-- The request queue `chan Trigger`: its capacity and the triggers buffered in
it, oldest first. -/
structure TxChan where
  cap : Nat
  queue : List Trigger
  deriving DecidableEq, Repr

/-- Channel state outside the gateway object: the request queue `*r.tx`, the
buffer of every `chan []Event` (capacity 1: empty or one message), and the
identifier that the next `make(chan []Event, 1)` yields. -/
structure World where
  tx : TxChan
  resp : ChanId → Option (List Event)
  nextChan : ChanId

/-- Allocation `make(chan []Event, 1)`: a new, empty channel. -/
def World.makeChan (w : World) : ChanId × World :=
  (w.nextChan,
   { w with resp := fun c => if c = w.nextChan then none else w.resp c,
            nextChan := w.nextChan + 1 })

/-- Send `*r.tx <- trigger`: `none` when the queue is full and the send waits. -/
def World.sendTx (w : World) (trigger : Trigger) : Option World :=
  if w.tx.queue.length < w.tx.cap then
    some { w with tx := { w.tx with queue := w.tx.queue ++ [trigger] } }
  else none

/-- Send `responder <- events` on a capacity-1 channel: `none` when the buffer
already holds a message and the send waits. -/
def World.send (w : World) (responder : ChanId) (events : List Event) : Option World :=
  match w.resp responder with
  | none => some { w with resp := fun c => if c = responder then some events else w.resp c }
  | some _ => none

/-- The non-blocking receive of `select { case events := <-responder: .. default: .. }`:
the message taken and the channel state after it, or `none` for the default
branch. -/
def World.tryRecv (w : World) (responder : ChanId) : Option (List Event × World) :=
  match w.resp responder with
  | some events => some (events, { w with resp := fun c => if c = responder then none else w.resp c })
  | none => none

/-- The mailbox `map[string]*Event`. -/
abbrev EventMap := String → Option Event

/-- The struct `TriggerHandler`.  The field `tx` points to the one request queue
`World.tx`; `eventLock` guards `events` and `hasEvents` and carries no data. -/
structure TriggerHandler where
  responders : List ChanId
  events : EventMap
  hasEvents : Bool

def NewTrigger (event : Event) (w : World) : Trigger × World :=
  let (responder, w) := w.makeChan
  ({ toEvent := event, Responder := responder }, w)

def NewTriggerHandler : TriggerHandler :=
  { responders := [],
    events := fun _ => none,
    hasEvents := false }

/-- The method `MakeTrigger`; `none` when the send on the request queue waits
(nothing of the gateway has changed at that point). -/
def TriggerHandler.MakeTrigger (r : TriggerHandler) (event : Event) (w : World) :
    Option (TriggerHandler × World) :=
  let (trigger, w) := NewTrigger event w
  let (responder, w) := w.makeChan
  let trigger := { trigger with Responder := responder }
  match w.sendTx trigger with
  | none => none
  | some w => some ({ r with responders := r.responders ++ [responder] }, w)

def TriggerHandler.routeEvent (r : TriggerHandler) (event : Event) : TriggerHandler :=
  { r with events := fun k => if k = event.Component then some event else r.events k,
           hasEvents := true }

def TriggerHandler.PassEvent (r : TriggerHandler) (event : Event) : TriggerHandler :=
  r.routeEvent event

/-- The `for _, responder := range r.responders` loop of `RecieveEvents`, with
the handler, the channels and `remainingResponders` as loop state. -/
def TriggerHandler.RecieveEvents.loop :
    List ChanId → TriggerHandler → World → List ChanId → TriggerHandler × World × List ChanId
  | [], r, w, remainingResponders => (r, w, remainingResponders)
  | responder :: rest, r, w, remainingResponders =>
    match w.tryRecv responder with
    | some (events, w) =>
      TriggerHandler.RecieveEvents.loop rest (events.foldl TriggerHandler.routeEvent r) w
        remainingResponders
    | none =>
      TriggerHandler.RecieveEvents.loop rest r w (remainingResponders ++ [responder])

def TriggerHandler.RecieveEvents (r : TriggerHandler) (w : World) : TriggerHandler × World :=
  let remainingResponders : List ChanId := []
  let (r, w, remainingResponders) :=
    TriggerHandler.RecieveEvents.loop r.responders r w remainingResponders
  ({ r with responders := remainingResponders }, w)

/-- The method `GetEvents`: the handler after the call, and the pair it
returns (`none` is the nil map). -/
def TriggerHandler.GetEvents (r : TriggerHandler) : TriggerHandler × Bool × Option EventMap :=
  if r.hasEvents then
    let events := r.events
    ({ r with hasEvents := false, events := fun _ => none }, true, some events)
  else
    (r, false, none)

/-! ## internal/aws/auth, internal/aws/sso: the boundary with the AWS SDK -/

/-- The struct `auth.AWSConfig`: the embedded `ipc.AWSConfigData` and the two
SDK objects, which the bus never inspects (kept as handles). -/
structure AWSConfig extends AWSConfigData where
  SharedConfig : Nat
  Config : Nat
  deriving DecidableEq, Repr

/-- Results of the external operations.  `GetAwsConfigFromProfileConfig profile
region` returns `(nil, err)` (here `.error err.Error()`) or `(cfg, nil)`;
`ExecAwsSSOLogin profile` returns an error (`some err.Error()`) or nil. -/
structure External where
  GetAwsConfigFromProfileConfig : String → String → Except String AWSConfig
  ExecAwsSSOLogin : String → Option String

/-- Go `strings.Contains`. -/
def strings_Contains (s substr : String) : Bool :=
  decide (substr.data <:+: s.data)

/-! ## internal/backend/server.go -/

/-- The struct `Server`; its field `tx` points to the request queue `World.tx`. -/
structure Server where
  config : Option AWSConfig
  ssoExpired : Bool
  deriving DecidableEq, Repr

/-- A process-level fault of the server goroutine. -/
inductive Fault where
  | nilDereference
  | panic (msg : String)
  deriving DecidableEq, Repr

inductive Outcome (α : Type) where
  | returned (value : α)
  | panicked (fault : Fault)
  deriving DecidableEq, Repr

/-- A call of an external operation, with its arguments. -/
inductive ExternalCall where
  | GetAwsConfigFromProfileConfig (profile region : String)
  | ExecAwsSSOLogin (profile : String)
  deriving DecidableEq, Repr

/-- A run of a handler on one trigger: the server state it leaves, the event
lists it sent on `trigger.Responder` in program order, the external operations
it called in program order, and how it ended. -/
structure Exec (α : Type) where
  server : Server
  sent : List (List Event)
  calls : List ExternalCall
  result : Outcome α

/-- Continue after a callee: `value` is returned if the callee returned, a
panic of the callee unwinds. -/
def Exec.thenReturn {α β : Type} (e : Exec α) (value : β) : Exec β :=
  { server := e.server,
    sent := e.sent,
    calls := e.calls,
    result := match e.result with
      | .returned _ => .returned value
      | .panicked fault => .panicked fault }

def NewServer (ext : External) (profile region : String) : Server :=
  match ext.GetAwsConfigFromProfileConfig profile region with
  | .error err =>
    let ssoExpired := false
    let ssoExpired :=
      if strings_Contains err "SSO session is expired or invalid" then true else ssoExpired
    { config := none, ssoExpired := ssoExpired }
  | .ok config =>
    { config := some config, ssoExpired := false }

/-- The function `triggerErrorMessage`: `sent` is what was sent on the
responder so far, the result adds the send `*responder <- events`. -/
def triggerErrorMessage (errorMessage : String) (sent : List (List Event)) : List (List Event) :=
  let events : List Event := []
  let events := events ++ [{ Component := COMPONENT_TUI,
                             Action := ACTION_SHOW_ERROR_MODAL,
                             Data := Data.nil }]
  let events := events ++ [{ Component := COMPONENT_ERROR_MODAL,
                             Action := ACTION_SHOW_ERROR_MESSAGE,
                             Data := Data.errorData { Message := errorMessage } }]
  sent ++ [events]

/-- The method `refreshAwsConfig`: `sent` and `calls` are the sends and the
external calls of the handler so far; the result is the server after the call
with both logs extended. -/
def Server.refreshAwsConfig (ext : External) (s : Server) (profile region : String)
    (sent : List (List Event)) (calls : List ExternalCall) :
    Server × List (List Event) × List ExternalCall :=
  let calls := calls ++ [ExternalCall.GetAwsConfigFromProfileConfig profile region]
  match ext.GetAwsConfigFromProfileConfig profile region with
  | .error err =>
    (s, triggerErrorMessage ("Failed to refresh AWS configuration: " ++ err) sent, calls)
  | .ok cfg =>
    ({ s with config := some cfg }, sent, calls)

def Server.handleHeaderTrigger (s : Server) (trigger : Trigger) : Exec Unit :=
  let events : List Event := []
  if trigger.Action = ACTION_GET_AUTH_DATA then
    if s.ssoExpired then
      let events := events ++ [{ Component := COMPONENT_TUI,
                                 Action := ACTION_SHOW_REAUTHENTICATE_SSO_MODAL,
                                 Data := Data.nil }]
      let events := events ++ [{ Component := COMPONENT_REFRESH_SSO,
                                 Action := ACTION_MUST_REAUTHENTICATE_SSO,
                                 Data := Data.nil }]
      { server := s, sent := [events], calls := [], result := .returned () }
    else
      match s.config with
      | none => { server := s, sent := [], calls := [], result := .panicked .nilDereference }
      | some config =>
        let events := events ++ [{ Component := COMPONENT_HEADER,
                                   Action := ACTION_GET_AUTH_DATA,
                                   Data := Data.awsConfigData config.toAWSConfigData }]
        { server := s, sent := [events], calls := [], result := .returned () }
  else
    { server := s, sent := [], calls := [], result := .returned () }

def Server.handleSwitchProfileView (ext : External) (s : Server) (trigger : Trigger) : Exec Unit :=
  if trigger.Action = ACTION_CHANGE_PROFILE then
    match trigger.Data with
    | .changeProfileData profileData =>
      match s.config with
      | none => { server := s, sent := [], calls := [], result := .panicked .nilDereference }
      | some config =>
        let (s, sent, calls) := s.refreshAwsConfig ext profileData.Profile config.Region [] []
        match s.config with
        | none => { server := s, sent := sent, calls := calls, result := .panicked .nilDereference }
        | some config =>
          let events : List Event := []
          let events := events ++ [{ Component := COMPONENT_HEADER,
                                     Action := ACTION_GET_AUTH_DATA,
                                     Data := Data.awsConfigData config.toAWSConfigData }]
          let events := events ++ [{ Component := COMPONENT_CHANGE_PROFILE,
                                     Action := ACTION_CHANGE_PROFILE,
                                     Data := Data.nil }]
          { server := s, sent := sent ++ [events], calls := calls, result := .returned () }
    | _ =>
      { server := s, sent := [], calls := [],
        result := .panicked (.panic "Expected ChangeProfileData") }
  else
    { server := s, sent := [], calls := [], result := .returned () }

def Server.handleRefreshSSO (ext : External) (s : Server) (trigger : Trigger) : Exec Unit :=
  if trigger.Action = ACTION_REAUTHENTICATE_SSO then
    match trigger.Data with
    | .reauthenticateSSOData refreshData =>
      let calls := [ExternalCall.ExecAwsSSOLogin refreshData.Profile]
      match ext.ExecAwsSSOLogin refreshData.Profile with
      | some err =>
        { server := s,
          sent := triggerErrorMessage ("Failed to reauthenticate SSO session: " ++ err) [],
          calls := calls,
          result := .returned () }
      | none =>
        let region := ""
        let region := match s.config with
          | some config => config.Region
          | none => region
        let (s, sent, calls) := s.refreshAwsConfig ext refreshData.Profile region [] calls
        let s := { s with ssoExpired := false }
        match s.config with
        | none => { server := s, sent := sent, calls := calls, result := .panicked .nilDereference }
        | some config =>
          let events : List Event := []
          let events := events ++ [{ Component := COMPONENT_HEADER,
                                     Action := ACTION_GET_AUTH_DATA,
                                     Data := Data.awsConfigData config.toAWSConfigData }]
          let events := events ++ [{ Component := COMPONENT_REFRESH_SSO,
                                     Action := ACTION_FINISH_REAUTHENTICATE_SSO,
                                     Data := Data.nil }]
          { server := s, sent := sent ++ [events], calls := calls, result := .returned () }
    | _ =>
      { server := s, sent := [], calls := [],
        result := .panicked (.panic "Expected ReauthenticateSSOData") }
  else
    { server := s, sent := [], calls := [], result := .returned () }

def Server.handleTrigger (ext : External) (s : Server) (trigger : Trigger) : Exec Bool :=
  if trigger.Component = COMPONENT_HEADER then
    (s.handleHeaderTrigger trigger).thenReturn false
  else if trigger.Component = COMPONENT_CHANGE_PROFILE then
    (s.handleSwitchProfileView ext trigger).thenReturn false
  else if trigger.Component = COMPONENT_REFRESH_SSO then
    (s.handleRefreshSSO ext trigger).thenReturn false
  else if trigger.Component = COMPONENT_QUIT then
    let events : List Event := []
    let events := events ++ [{ Component := COMPONENT_QUIT,
                               Action := ACTION_END,
                               Data := Data.nil }]
    { server := s, sent := [events], calls := [], result := .returned true }
  else
    { server := s, sent := [], calls := [], result := .returned false }

/-! ## Drivers: sequences of gateway calls, and the server side of a round trip -/

/-- The events on which one `RecieveEvents` call invokes `routeEvent`, in call
order: the loop of `RecieveEvents` with everything but the received lists
dropped. -/
def TriggerHandler.RecieveEvents.routed : List ChanId → World → List Event
  | [], _ => []
  | responder :: rest, w =>
    match w.tryRecv responder with
    | some (events, w) => events ++ TriggerHandler.RecieveEvents.routed rest w
    | none => TriggerHandler.RecieveEvents.routed rest w

/-- A call of a gateway method other than `GetEvents`.  The channel state in
which `RecieveEvents` or `MakeTrigger` runs is part of the call: the server
goroutine fills responders between calls. -/
inductive GatewayCall where
  | PassEvent (event : Event)
  | RecieveEvents (w : World)
  | MakeTrigger (event : Event) (w : World)

/-- The gateway after one call (a `MakeTrigger` that waits on a full request
queue has not changed the gateway). -/
def GatewayCall.apply (r : TriggerHandler) : GatewayCall → TriggerHandler
  | .PassEvent event => r.PassEvent event
  | .RecieveEvents w => (r.RecieveEvents w).1
  | .MakeTrigger event w =>
    match r.MakeTrigger event w with
    | some (r, _) => r
    | none => r

/-- The events that one call hands to `routeEvent`, in order. -/
def GatewayCall.routed (r : TriggerHandler) : GatewayCall → List Event
  | .PassEvent event => [event]
  | .RecieveEvents w => TriggerHandler.RecieveEvents.routed r.responders w
  | .MakeTrigger _ _ => []

/-- The gateway after a sequence of calls. -/
def runCalls (r : TriggerHandler) : List GatewayCall → TriggerHandler
  | [] => r
  | call :: calls => runCalls (call.apply r) calls

/-- All events written into the mailbox by a sequence of calls, in order. -/
def routedBy (r : TriggerHandler) : List GatewayCall → List Event
  | [] => []
  | call :: calls => call.routed r ++ routedBy (call.apply r) calls

/-- The replies that are available to a FIFO of responders, concatenated in
FIFO order (list order within a reply). -/
def availableReplies (responders : List ChanId) (w : World) : List Event :=
  responders.flatMap fun c => (w.resp c).getD []

/-- The channel state of `RunRootCmd`: `tx := make(chan ipc.Trigger, 100)` and
no responder made yet. -/
def initWorld : World :=
  { tx := { cap := 100, queue := [] },
    resp := fun _ => none,
    nextChan := 0 }

/-- The receive `trigger := <-*s.tx` of `Server.Run`: `none` when the queue is
empty and the receive waits. -/
def World.recvTx (w : World) : Option (Trigger × World) :=
  match w.tx.queue with
  | [] => none
  | trigger :: queue => some (trigger, { w with tx := { w.tx with queue := queue } })

/-- The sends of a handler run applied to the responder channel, in order;
`none` when one of them finds the buffer full and waits. -/
def World.sendAll (w : World) (responder : ChanId) : List (List Event) → Option World
  | [] => some w
  | events :: rest =>
    match w.send responder events with
    | none => none
    | some w => World.sendAll w responder rest

/-- One iteration of the loop of `Server.Run` against the channels: take a
trigger from the request queue, handle it, and perform its sends. -/
def Server.serveOne (ext : External) (s : Server) (w : World) : Option (Exec Bool × World) :=
  match w.recvTx with
  | none => none
  | some (trigger, w) =>
    let e := s.handleTrigger ext trigger
    match w.sendAll trigger.Responder e.sent with
    | none => none
    | some w => some (e, w)

/-- A round trip from a fresh gateway: `MakeTrigger event`, one server
iteration, `RecieveEvents`, `GetEvents`.  The result is the gateway after the
`GetEvents` call and what that call returned. -/
def roundTrip (ext : External) (s : Server) (event : Event) :
    Option (TriggerHandler × Bool × Option EventMap) :=
  match NewTriggerHandler.MakeTrigger event initWorld with
  | none => none
  | some (r, w) =>
    match s.serveOne ext w with
    | none => none
    | some (_, w) =>
      let (r, _) := r.RecieveEvents w
      some r.GetEvents

/-- A number of `RecieveEvents` calls in a row, each on the channels the call
before it left. -/
def recieveTimes : Nat → TriggerHandler × World → TriggerHandler × World
  | 0, state => state
  | n + 1, state => recieveTimes n (state.1.RecieveEvents state.2)

/-! ## `Server.Run` -/

/-- The sends of a handler run applied to the responder channel, in order, up
to the first one that finds the buffer full: the channels after the sends that
went through, and the sends still to be done (none when all went through, else
the first of them is the send that waits). -/
def World.sendUntilFull (w : World) (responder : ChanId) :
    List (List Event) → World × List (List Event)
  | [] => (w, [])
  | events :: rest =>
    match w.send responder events with
    | none => (w, events :: rest)
    | some w => World.sendUntilFull w responder rest

/-- How `Server.Run` stands after the triggers that arrived: it left its loop
after a quit trigger, it waits in the receive on the empty request queue, the
goroutine died in a panic, or the handler of `trigger` waits in a send on the
responder, whose buffer is full, with the sends `pending` still to be done. -/
inductive RunEnd where
  | shutDown
  | waiting
  | crashed (fault : Fault)
  | blocked (trigger : Trigger) (pending : List (List Event))
  deriving DecidableEq, Repr

/-- What a run of `Server.Run` did: the server state after the last handler
that came to its end (returned or panicked), the channels, the triggers whose
handler came to its end (in order, each with the event lists sent on its
responder), the triggers left in the request queue, and how it stands. -/
structure RunResult where
  server : Server
  world : World
  handled : List (Trigger × List (List Event))
  abandoned : List Trigger
  ending : RunEnd

/-- The loop of `Server.Run` over the triggers arriving on `*s.tx`, oldest
first, with the responder channels in `w`; each trigger comes with the results
the external operations give while it is handled.  Only the server acts: no
receiver takes a message off a responder during the run, so a send that finds
the capacity-1 buffer full waits and the loop stands there. -/
def Server.Run (s : Server) (w : World) : List (External × Trigger) → RunResult
  | [] => { server := s, world := w, handled := [], abandoned := [], ending := .waiting }
  | (ext, trigger) :: queue =>
    let e := s.handleTrigger ext trigger
    match w.sendUntilFull trigger.Responder e.sent with
    | (w, []) =>
      match e.result with
      | .panicked fault =>
        { server := e.server, world := w, handled := [(trigger, e.sent)],
          abandoned := queue.map Prod.snd, ending := .crashed fault }
      | .returned ended =>
        if ended then
          { server := e.server, world := w, handled := [(trigger, e.sent)],
            abandoned := queue.map Prod.snd, ending := .shutDown }
        else
          let rest := Server.Run e.server w queue
          { rest with handled := (trigger, e.sent) :: rest.handled }
    | (w, events :: pending) =>
      { server := s, world := w, handled := [],
        abandoned := queue.map Prod.snd, ending := .blocked trigger (events :: pending) }

/-! ## internal/tui/app_handle.go -/

/-- A component behind the interface `Renderable`, identified by the name that
`GetName` returns. -/
structure Renderable where
  name : String
  deriving DecidableEq, Repr

/-- A call `sub.Render(event)` made by the dispatch loop, with the key
`component` of `a.subscriptions` under which `sub` was found. -/
structure RenderCall where
  component : String
  sub : Renderable
  event : Event
  deriving DecidableEq, Repr

/-- The struct `AppHandle`.  `subscriptions` is the map `map[string]Renderable`
as the list of its entries, in the order in which `range` visits them (Go leaves
that order open); the embedded `*tview.Application` is the UI toolkit. -/
structure AppHandle where
  triggerHandler : TriggerHandler
  subscriptions : List (String × Renderable)

def NewAppHandle (triggerHandler : TriggerHandler) : AppHandle :=
  { triggerHandler := triggerHandler,
    subscriptions := [] }

/-- The map assignment `m[component] = sub` on the list of entries: the value
of an existing key is replaced, a new key gets a new entry. -/
def mapAssign (component : String) (sub : Renderable) :
    List (String × Renderable) → List (String × Renderable)
  | [] => [(component, sub)]
  | (k, v) :: rest =>
    if k = component then (k, sub) :: rest else (k, v) :: mapAssign component sub rest

def AppHandle.SetSubscription (a : AppHandle) (component : String) (sub : Renderable) :
    AppHandle :=
  { a with subscriptions := mapAssign component sub a.subscriptions }

/-- The method `SendTrigger`; `none` when `MakeTrigger` waits on a full request
queue. -/
def AppHandle.SendTrigger (a : AppHandle) (component action : String) (data : Data)
    (w : World) : Option (AppHandle × World) :=
  let event : Event := { Component := component, Action := action, Data := data }
  match a.triggerHandler.MakeTrigger event w with
  | none => none
  | some (r, w) => some ({ a with triggerHandler := r }, w)

def AppHandle.PassEvent (a : AppHandle) (response : Event) : AppHandle :=
  { a with triggerHandler := a.triggerHandler.PassEvent response }

/-- The function handed to `QueueUpdateDraw`: the loop over `a.subscriptions`,
as the list of the `Render` calls it makes (each `Render` is taken to return). -/
def AppHandle.RunEventHandler.update (events : EventMap) :
    List (String × Renderable) → List RenderCall
  | [] => []
  | (component, sub) :: rest =>
    match events component with
    | some event =>
      { component := component, sub := sub, event := event }
        :: AppHandle.RunEventHandler.update events rest
    | none => AppHandle.RunEventHandler.update events rest

/-- One iteration of the `for` loop of `RunEventHandler`. -/
structure Iteration where
  handle : AppHandle
  world : World
  rendered : List RenderCall
  returned : Bool

/-- One iteration of the `for` loop of `RunEventHandler` in channel state `w`;
`QueueUpdateDraw(f)` is taken to run `f`. -/
def AppHandle.RunEventHandler.iteration (a : AppHandle) (w : World) : Iteration :=
  let (r, w) := a.triggerHandler.RecieveEvents w
  let (r, hasEvents, events) := r.GetEvents
  let a := { a with triggerHandler := r }
  if hasEvents then
    let events : EventMap := events.getD (fun _ => none)
    match events COMPONENT_QUIT with
    | some _ => { handle := a, world := w, rendered := [], returned := true }
    | none =>
      { handle := a, world := w,
        rendered := AppHandle.RunEventHandler.update events a.subscriptions,
        returned := false }
  else
    { handle := a, world := w, rendered := [], returned := false }

/-- The loop of `RunEventHandler`, one iteration per channel state in the list
(the state the server side has produced by then); the result is the handle,
all `Render` calls made, and whether the method has returned. -/
def AppHandle.RunEventHandler (a : AppHandle) : List World → AppHandle × List RenderCall × Bool
  | [] => (a, [], false)
  | w :: later =>
    let it := AppHandle.RunEventHandler.iteration a w
    if it.returned then (it.handle, it.rendered, true)
    else
      let (a, rendered, returned) := AppHandle.RunEventHandler it.handle later
      (a, it.rendered ++ rendered, returned)

/-- The gateway states that `NewTriggerHandler` and the four methods produce. -/
inductive Reachable : TriggerHandler → Prop where
  | init : Reachable NewTriggerHandler
  | call (r : TriggerHandler) (c : GatewayCall) : Reachable r → Reachable (c.apply r)
  | getEvents (r : TriggerHandler) : Reachable r → Reachable r.GetEvents.1

/-! ## internal/tui: the constructors and their subscriptions

Of every constructor the part that concerns the bus is kept: the component it
makes, the `SetSubscription` calls and the triggers it raises.  The widgets,
key bindings and the goroutine started by `go handle.RunEventHandler()` are
left out. -/

/-- The struct `Tui`, without its widget tree. -/
structure Tui where
  handle : AppHandle
  name : String
  currentPage : String
  pages : List (String × Renderable)

def NewErrorModal (handle : AppHandle) : Renderable × AppHandle :=
  let errorModal : Renderable := { name := COMPONENT_ERROR_MODAL }
  (errorModal, handle)

def NewChangeProfileView (handle : AppHandle) : Renderable × AppHandle :=
  let view : Renderable := { name := COMPONENT_CHANGE_PROFILE }
  let handle := handle.SetSubscription view.name view
  (view, handle)

def NewSetAccessKeysView (handle : AppHandle) : Renderable × AppHandle :=
  let view : Renderable := { name := COMPONENT_SET_ACCESS_KEYS }
  let handle := handle.SetSubscription view.name view
  (view, handle)

def NewAuthModal (handle : AppHandle) : Renderable × AppHandle :=
  let (_changeProfile, handle) := NewChangeProfileView handle
  let (_newAccessKey, handle) := NewSetAccessKeysView handle
  let am : Renderable := { name := COMPONENT_AUTH_MODAL }
  (am, handle)

def NewHelpModal (handle : AppHandle) : Renderable × AppHandle :=
  let modal : Renderable := { name := COMPONENT_HELP_MODAL }
  (modal, handle)

def NewSSOReauthenticationModal (handle : AppHandle) : Renderable × AppHandle :=
  let modal : Renderable := { name := COMPONENT_REFRESH_SSO }
  let handle := handle.SetSubscription modal.name modal
  (modal, handle)

/-- The function `NewHeader`, with `TriggerAuth` at its end; `none` when the
trigger waits on a full request queue. -/
def NewHeader (handle : AppHandle) (w : World) : Option (Renderable × AppHandle × World) :=
  let header : Renderable := { name := COMPONENT_HEADER }
  let handle := handle.SetSubscription header.name header
  match handle.SendTrigger header.name ACTION_GET_AUTH_DATA Data.nil w with
  | none => none
  | some (handle, w) => some (header, handle, w)

def NewTui (reqhandler : TriggerHandler) (w : World) : Option (Tui × World) :=
  let handle := NewAppHandle reqhandler
  let (errorModal, handle) := NewErrorModal handle
  let (authModal, handle) := NewAuthModal handle
  let (helpModal, handle) := NewHelpModal handle
  let (ssoModal, handle) := NewSSOReauthenticationModal handle
  let pages := [(errorModal.name, errorModal), (authModal.name, authModal),
                (helpModal.name, helpModal), (ssoModal.name, ssoModal)]
  match NewHeader handle w with
  | none => none
  | some (_header, handle, w) =>
    let tui : Renderable := { name := COMPONENT_TUI }
    let handle := handle.SetSubscription tui.name tui
    some ({ handle := handle, name := COMPONENT_TUI, currentPage := "", pages := pages }, w)

/-! ## internal/aws/auth/auth.go: profile enumeration -/

/-- Go `unicode.IsSpace`. -/
def unicode_IsSpace (c : Char) : Bool :=
  let n := c.toNat
  n == 9 || n == 10 || n == 11 || n == 12 || n == 13 || n == 32 || n == 0x85 || n == 0xA0
    || n == 0x1680 || (0x2000 ≤ n && n ≤ 0x200A) || n == 0x2028 || n == 0x2029
    || n == 0x202F || n == 0x205F || n == 0x3000

/-- Go `strings.TrimSpace`. -/
def strings_TrimSpace (s : String) : String :=
  ⟨(s.data.dropWhile unicode_IsSpace).rdropWhile unicode_IsSpace⟩

/-- Go `strings.HasPrefix`. -/
def strings_HasPrefix (s pre : String) : Bool :=
  pre.data.isPrefixOf s.data

/-- Go `strings.HasSuffix`. -/
def strings_HasSuffix (s suf : String) : Bool :=
  suf.data.isSuffixOf s.data

/-- Go `strings.TrimPrefix`. -/
def strings_TrimPrefix (s pre : String) : String :=
  if strings_HasPrefix s pre then ⟨s.data.drop pre.data.length⟩ else s

/-- Go `strings.TrimSuffix`. -/
def strings_TrimSuffix (s suf : String) : String :=
  if strings_HasSuffix s suf then ⟨s.data.take (s.data.length - suf.data.length)⟩ else s

/-- What `os.Open` followed by a `bufio.Scanner` loop yields for a path: the open
fails, or the scanner delivers the lines of the file and then reports an error
or none (`scanner.Err()`). -/
inductive ScanResult where
  | openFailed (err : String)
  | scanned (lines : List String) (err : Option String)
  deriving DecidableEq, Repr

/-- The process environment of `GetAvailableProfiles`: `os.Getenv`, the two
default file names of the AWS SDK, and the files. -/
structure Os where
  Getenv : String → String
  DefaultSharedCredentialsFilename : String
  DefaultSharedConfigFilename : String
  scanFile : String → ScanResult

/-- The body of the `for scanner.Scan()` loop of `getProfilesFromFile`: the
slice `profiles` after the line `text`. -/
def getProfilesFromFile.scanLine (profiles : List String) (text : String) : List String :=
  let line := strings_TrimSpace text
  if strings_HasPrefix line "[profile " && strings_HasSuffix line "]" then
    let profile := strings_TrimPrefix line "[profile "
    let profile := strings_TrimSuffix profile "]"
    if profile ≠ "" then profiles ++ [profile] else profiles
  else profiles

def getProfilesFromFile (os : Os) (filePath : String) : Except String (List String) :=
  match os.scanFile filePath with
  | .openFailed err => .error err
  | .scanned lines err =>
    let profiles : List String := []
    let profiles := lines.foldl getProfilesFromFile.scanLine profiles
    match err with
    | some err => .error err
    | none => .ok profiles

/-- The loop `for _, profile := range ..` of `GetAvailableProfiles` on the set
`profiles` (a `map[string]struct{}`, here the list of its keys). -/
def GetAvailableProfiles.addAll (profiles : List String) (found : List String) : List String :=
  found.foldl (fun profiles profile =>
    if profile ∈ profiles then profiles else profiles ++ [profile]) profiles

/-- The function `GetAvailableProfiles`.  The result lists the keys of the set
in the order in which they were added; Go leaves the order open. -/
def GetAvailableProfiles (os : Os) : List String :=
  let credentialFile :=
    if os.Getenv "AWS_SHARED_CREDENTIALS_FILE" = "" then os.DefaultSharedCredentialsFilename
    else os.Getenv "AWS_SHARED_CREDENTIALS_FILE"
  let configFile :=
    if os.Getenv "AWS_CONFIG_FILE" = "" then os.DefaultSharedConfigFilename
    else os.Getenv "AWS_CONFIG_FILE"
  let profiles : List String := []
  let profiles := match getProfilesFromFile os credentialFile with
    | .ok credProfiles => GetAvailableProfiles.addAll profiles credProfiles
    | .error _ => profiles
  let profiles := match getProfilesFromFile os configFile with
    | .ok configProfiles => GetAvailableProfiles.addAll profiles configProfiles
    | .error _ => profiles
  profiles

/-- The names that `getProfilesFromFile` contributes for a path: what it
returns, or nothing when it returns an error. -/
def extractedProfiles (os : Os) (filePath : String) : List String :=
  match getProfilesFromFile os filePath with
  | .ok profiles => profiles
  | .error _ => []

/-- The path of the credentials file that `GetAvailableProfiles` reads. -/
def credentialFileOf (os : Os) : String :=
  if os.Getenv "AWS_SHARED_CREDENTIALS_FILE" = "" then os.DefaultSharedCredentialsFilename
  else os.Getenv "AWS_SHARED_CREDENTIALS_FILE"

/-- The path of the config file that `GetAvailableProfiles` reads. -/
def configFileOf (os : Os) : String :=
  if os.Getenv "AWS_CONFIG_FILE" = "" then os.DefaultSharedConfigFilename
  else os.Getenv "AWS_CONFIG_FILE"

/-! ## The lock discipline of the gateway: steps of each method -/

/-- An atomic step of a gateway method that touches `eventLock`, a field shared
between goroutines, or a channel. -/
inductive Step where
  | lock
  | unlock
  | readEvents
  | writeEvents
  | readHasEvents
  | writeHasEvents
  | readResponders
  | writeResponders
  | sendTx
  | tryRecv (responder : ChanId)
  deriving DecidableEq, Repr

/-- Steps of `routeEvent`: `Lock`, the map assignment, the flag assignment, and
the deferred `Unlock`. -/
def TriggerHandler.routeEvent.steps : List Step :=
  [Step.lock, Step.writeEvents, Step.writeHasEvents, Step.unlock]

def TriggerHandler.PassEvent.steps : List Step :=
  TriggerHandler.routeEvent.steps

/-- Steps of `MakeTrigger` once the send has gone through: the send on `*r.tx`,
then `r.responders = append(r.responders, responder)`. -/
def TriggerHandler.MakeTrigger.steps : List Step :=
  [Step.sendTx, Step.readResponders, Step.writeResponders]

/-- Steps of the loop of `RecieveEvents`. -/
def TriggerHandler.RecieveEvents.loopSteps : List ChanId → World → List Step
  | [], _ => []
  | responder :: rest, w =>
    match w.tryRecv responder with
    | some (events, w) =>
      Step.tryRecv responder
        :: (events.flatMap (fun _ => TriggerHandler.routeEvent.steps)
            ++ TriggerHandler.RecieveEvents.loopSteps rest w)
    | none => Step.tryRecv responder :: TriggerHandler.RecieveEvents.loopSteps rest w

/-- Steps of `RecieveEvents`: `len(r.responders)` for the log line, the `range`
over `r.responders`, the loop, and the assignment to `r.responders`. -/
def TriggerHandler.RecieveEvents.steps (r : TriggerHandler) (w : World) : List Step :=
  [Step.readResponders, Step.readResponders]
    ++ TriggerHandler.RecieveEvents.loopSteps r.responders w
    ++ [Step.writeResponders]

/-- Steps of `GetEvents`. -/
def TriggerHandler.GetEvents.steps (r : TriggerHandler) : List Step :=
  if r.hasEvents then
    [Step.lock, Step.readHasEvents, Step.writeHasEvents, Step.readEvents, Step.writeEvents,
     Step.unlock]
  else
    [Step.lock, Step.readHasEvents, Step.unlock]

def Step.isMailbox : Step → Bool
  | .readEvents | .writeEvents | .readHasEvents | .writeHasEvents => true
  | _ => false

def Step.isFifo : Step → Bool
  | .readResponders | .writeResponders => true
  | _ => false

def Step.isChannelOp : Step → Bool
  | .sendTx | .tryRecv _ => true
  | _ => false

/-- Run through the steps with the state of `eventLock` (`held`), checking
`ok held step` at every step other than `lock` and `unlock`. -/
def lockCheck (ok : Bool → Step → Bool) : Bool → List Step → Bool
  | _, [] => true
  | _, Step.lock :: rest => lockCheck ok true rest
  | _, Step.unlock :: rest => lockCheck ok false rest
  | held, step :: rest => ok held step && lockCheck ok held rest

/-- Every step picked by `shared` happens while `eventLock` is held. -/
def guardedByLock (shared : Step → Bool) (steps : List Step) : Bool :=
  lockCheck (fun held step => !shared step || held) false steps

/-- No channel operation happens while `eventLock` is held. -/
def channelOpsOutsideLock (steps : List Step) : Bool :=
  lockCheck (fun held step => !step.isChannelOp || !held) false steps

/-- Every entry of the mailbox sits under the key that is its own Component. -/
def Keyed (m : EventMap) : Prop :=
  ∀ k e, m k = some e → e.Component = k

/-- The line `text`, trimmed of white space, is "[profile " followed by the
non-empty `name` and "]". -/
def namesProfile (text name : String) : Prop :=
  name ≠ "" ∧ strings_TrimSpace text = "[profile " ++ name ++ "]"

/-- The Component lists of the replies that the backend sends: the Header
reply, the re-authentication pair, the change-profile reply, the
finish-reauthentication reply, the error pair and the quit reply. -/
def ReplyComponents (reply : List Event) : Prop :=
  reply.map Event.Component = [COMPONENT_HEADER]
    ∨ reply.map Event.Component = [COMPONENT_TUI, COMPONENT_REFRESH_SSO]
    ∨ reply.map Event.Component = [COMPONENT_HEADER, COMPONENT_CHANGE_PROFILE]
    ∨ reply.map Event.Component = [COMPONENT_HEADER, COMPONENT_REFRESH_SSO]
    ∨ reply.map Event.Component = [COMPONENT_TUI, COMPONENT_ERROR_MODAL]
    ∨ reply.map Event.Component = [COMPONENT_QUIT]

/-! ## Sample inputs -/

def sampleConfig : AWSConfig :=
  { Profile := "dev", SSORoleName := "Admin", AccountId := "123456789012",
    AssumeRoleARN := "", AccessKeyID := "AKIAEXAMPLE", CredentialsSource := "SSOProvider",
    Region := "eu-west-1", SharedConfig := 0, Config := 0 }

/-- An event for the error modal with payload `message`. -/
def modalEvent (message : String) : Event :=
  { Component := COMPONENT_ERROR_MODAL,
    Action := ACTION_SHOW_ERROR_MESSAGE,
    Data := Data.errorData { Message := message } }

def closeModalEvent : Event :=
  { Component := COMPONENT_TUI, Action := ACTION_CLOSE_ERROR_MODAL, Data := Data.nil }

/-- A gateway with one undelivered event for the error modal and two pending
responders, channels 0 and 1. -/
def busyHandler : TriggerHandler :=
  { responders := [0, 1],
    events := fun k => if k = COMPONENT_ERROR_MODAL then some (modalEvent "old") else none,
    hasEvents := true }

/-- A gateway with an empty mailbox and two pending responders. -/
def idleHandler : TriggerHandler :=
  { responders := [0, 1],
    events := fun _ => none,
    hasEvents := false }

/-- Channel 1 holds the reply `[modalEvent "B"]`, channel 0 holds nothing. -/
def replyWorld : World :=
  { tx := { cap := 100, queue := [] },
    resp := fun c => if c = 1 then some [modalEvent "B"] else none,
    nextChan := 2 }

/-- Two responders made, none answered. -/
def quietWorld : World :=
  { tx := { cap := 100, queue := [] },
    resp := fun _ => none,
    nextChan := 2 }

/-- The call is a config load, and it fails under `ext`. -/
def ExternalCall.loadFails (ext : External) : ExternalCall → Bool
  | .GetAwsConfigFromProfileConfig profile region =>
    match ext.GetAwsConfigFromProfileConfig profile region with
    | .error _ => true
    | .ok _ => false
  | .ExecAwsSSOLogin _ => false

/-- The (Component, Action) pairs for which `handleTrigger` and the handlers
it dispatches to have a branch: `Quit` with any action, and one action for each
of the three other components. -/
def Trigger.hasReplyPath (t : Trigger) : Prop :=
  t.Component = COMPONENT_QUIT
    ∨ (t.Component = COMPONENT_HEADER ∧ t.Action = ACTION_GET_AUTH_DATA)
    ∨ (t.Component = COMPONENT_CHANGE_PROFILE ∧ t.Action = ACTION_CHANGE_PROFILE)
    ∨ (t.Component = COMPONENT_REFRESH_SSO ∧ t.Action = ACTION_REAUTHENTICATE_SSO)

/-- Every config load fails with the generic error "boom"; the SSO login works. -/
def loadFailsExternal : External :=
  { GetAwsConfigFromProfileConfig := fun _ _ => .error "boom",
    ExecAwsSSOLogin := fun _ => none }

/-- Every config load works; the SSO login fails with "exit status 255". -/
def loginFailsExternal : External :=
  { GetAwsConfigFromProfileConfig := fun profile _ => .ok { sampleConfig with Profile := profile },
    ExecAwsSSOLogin := fun _ => some "exit status 255" }

/-- A server that holds a loaded config. -/
def loadedServer : Server :=
  { config := some sampleConfig, ssoExpired := false }

def headerTrigger : Trigger :=
  { Component := COMPONENT_HEADER, Action := ACTION_GET_AUTH_DATA, Data := Data.nil,
    Responder := 0 }

def changeProfileTrigger : Trigger :=
  { Component := COMPONENT_CHANGE_PROFILE, Action := ACTION_CHANGE_PROFILE,
    Data := Data.changeProfileData { Profile := "prod" }, Responder := 0 }

def reauthTrigger : Trigger :=
  { Component := COMPONENT_REFRESH_SSO, Action := ACTION_REAUTHENTICATE_SSO,
    Data := Data.reauthenticateSSOData { Profile := "prod" }, Responder := 0 }

/-- The trigger that the Set Access Keys view raises (`auth_modal.go`). -/
def setAccessKeysTrigger : Trigger :=
  { Component := COMPONENT_SET_ACCESS_KEYS, Action := "reauthWithNewAccessKeys",
    Data := Data.awsAccessKeysDataPtr
      { AccessKeyID := "AKIAEXAMPLE", SecretAccessKey := "secret", Region := "eu-west-1" },
    Responder := 0 }

/-- The event `{Tui, showReauthenticateSSOModal, nil}`. -/
def reauthPromptEvent : Event :=
  { Component := COMPONENT_TUI, Action := ACTION_SHOW_REAUTHENTICATE_SSO_MODAL,
    Data := Data.nil }

/-- The event `{SSOReauthenticationModal, mustReauthenticateSSO, nil}`. -/
def mustReauthEvent : Event :=
  { Component := COMPONENT_REFRESH_SSO, Action := ACTION_MUST_REAUTHENTICATE_SSO,
    Data := Data.nil }

/-- A server whose startup load failed with the session-expired error. -/
def expiredServer : Server :=
  { config := none, ssoExpired := true }

/-- Channel 0 holds the re-authentication pair, channel 1 an error message. -/
def expiredReplyWorld : World :=
  { tx := { cap := 100, queue := [] },
    resp := fun c =>
      if c = 0 then some [reauthPromptEvent, mustReauthEvent]
      else if c = 1 then some [modalEvent "B"] else none,
    nextChan := 2 }

/-- Every config load fails with the error that `GetAwsConfigFromProfileConfig`
returns for an expired SSO session; the SSO login works. -/
def sessionExpiredExternal : External :=
  { GetAwsConfigFromProfileConfig := fun _ _ => .error "SSO session is expired or invalid",
    ExecAwsSSOLogin := fun _ => none }

/-- The event `{Quit, end, nil}`. -/
def terminalEvent : Event :=
  { Component := COMPONENT_QUIT, Action := ACTION_END, Data := Data.nil }

/-- The event `{Tui, showErrorModal, nil}`. -/
def showErrorModalEvent : Event :=
  { Component := COMPONENT_TUI, Action := ACTION_SHOW_ERROR_MODAL, Data := Data.nil }

/-- The trigger that Ctrl-C raises (`NewTui`). -/
def quitTrigger : Trigger :=
  { Component := COMPONENT_QUIT, Action := ACTION_END, Data := Data.nil, Responder := 1 }

/-- A changeProfile trigger whose payload is not a `ChangeProfileData`. -/
def untypedChangeProfileTrigger : Trigger :=
  { Component := COMPONENT_CHANGE_PROFILE, Action := ACTION_CHANGE_PROFILE,
    Data := Data.nil, Responder := 0 }

/-- A reauthenticateSSO trigger whose payload is not a `ReauthenticateSSOData`. -/
def untypedReauthTrigger : Trigger :=
  { Component := COMPONENT_REFRESH_SSO, Action := ACTION_REAUTHENTICATE_SSO,
    Data := Data.changeProfileData { Profile := "prod" }, Responder := 0 }

/-- A gateway reached by `PassEvent` calls from `NewTriggerHandler`: it holds
the close-modal event for `Tui` and an error message for `ErrorModal`. -/
def relayedHandler : TriggerHandler :=
  (NewTriggerHandler.PassEvent closeModalEvent).PassEvent (modalEvent "A")

/-- A handle with subscriptions of the Tui and of the header. -/
def sampleHandle : AppHandle :=
  { triggerHandler := relayedHandler,
    subscriptions := [(COMPONENT_TUI, { name := COMPONENT_TUI }),
                      (COMPONENT_HEADER, { name := COMPONENT_HEADER })] }

/-- A handle whose gateway holds the terminal event next to another event. -/
def quittingHandle : AppHandle :=
  { triggerHandler := relayedHandler.PassEvent terminalEvent,
    subscriptions := [(COMPONENT_TUI, { name := COMPONENT_TUI }),
                      (COMPONENT_HEADER, { name := COMPONENT_HEADER })] }

/-- A request queue with capacity 1 that is full. -/
def fullWorld : World :=
  { tx := { cap := 1, queue := [quitTrigger] },
    resp := fun _ => none,
    nextChan := 2 }

/-- An environment without the two variables, an unreadable credentials file
and a config file of seven lines. -/
def sampleOs : Os :=
  { Getenv := fun _ => "",
    DefaultSharedCredentialsFilename := "/home/u/.aws/credentials",
    DefaultSharedConfigFilename := "/home/u/.aws/config",
    scanFile := fun path =>
      if path = "/home/u/.aws/config" then
        ScanResult.scanned
          ["[default]", "region = eu-west-1", "  [profile dev]  ", "[profile ]",
           "[profile prod]", "sso_role_name = Admin", "[profile dev]"] none
      else ScanResult.openFailed "open: no such file or directory" }

/-- An environment in which neither file can be opened. -/
def unreadableOs : Os :=
  { Getenv := fun name => if name = "AWS_CONFIG_FILE" then "/tmp/config" else "",
    DefaultSharedCredentialsFilename := "/home/u/.aws/credentials",
    DefaultSharedConfigFilename := "/home/u/.aws/config",
    scanFile := fun _ => ScanResult.openFailed "open: permission denied" }

/-- What `GetAwsConfigFromProfileConfig` returns for the profile "prod". -/
def prodConfig : AWSConfig :=
  { Profile := "prod", SSORoleName := "ReadOnly", AccountId := "210987654321",
    AssumeRoleARN := "", AccessKeyID := "AKIAPROD", CredentialsSource := "SSOProvider",
    Region := "eu-west-1", SharedConfig := 1, Config := 1 }

/-- The config load works for "prod" in "eu-west-1" and fails otherwise; the SSO
login works. -/
def prodExternal : External :=
  { GetAwsConfigFromProfileConfig := fun profile region =>
      if profile = "prod" ∧ region = "eu-west-1" then .ok prodConfig
      else .error "profile not found",
    ExecAwsSSOLogin := fun _ => none }

/-- A gateway with an empty mailbox and the one pending responder 0. -/
def pendingHandler : TriggerHandler :=
  { responders := [0],
    events := fun _ => none,
    hasEvents := false }

/-- Channel 0 holds the error pair that `triggerErrorMessage` sends after a
failed SSO login. -/
def errorReplyWorld : World :=
  { tx := { cap := 100, queue := [] },
    resp := fun c =>
      if c = 0 then
        some [showErrorModalEvent,
              modalEvent "Failed to reauthenticate SSO session: exit status 255"]
      else none,
    nextChan := 1 }

/-- Start-up and a failed SSO re-login, up to the dispatch: `NewTui` on the
fresh gateway and the channels of `RunRootCmd`, the trigger of the
"Rerefresh SSO" button for profile "prod", and two iterations of `Server.Run`
(the Header trigger of start-up, then the reauthenticateSSO trigger, whose
login fails).  The result is the handle and the channels before the next
iteration of `RunEventHandler`. -/
def failedLoginState : Option (AppHandle × World) :=
  match NewTui NewTriggerHandler initWorld with
  | none => none
  | some (tui, w) =>
    match tui.handle.SendTrigger COMPONENT_REFRESH_SSO ACTION_REAUTHENTICATE_SSO
        (Data.reauthenticateSSOData { Profile := "prod" }) w with
    | none => none
    | some (handle, w) =>
      match loadedServer.serveOne loginFailsExternal w with
      | none => none
      | some (first, w) =>
        match first.server.serveOne loginFailsExternal w with
        | none => none
        | some (_, w) => some (handle, w)

/-! ## Lemmas on `routeEvent` and on the loop of `RecieveEvents` -/

theorem foldl_routeEvent_append_singleton (r : TriggerHandler) (es : List Event) (e : Event) :
    (es ++ [e]).foldl TriggerHandler.routeEvent r
      = ((es.foldl TriggerHandler.routeEvent r).routeEvent e) := by
  simp [List.foldl_append]

theorem foldl_routeEvent_responders (es : List Event) (r : TriggerHandler) :
    (es.foldl TriggerHandler.routeEvent r).responders = r.responders := by
  induction es generalizing r with
  | nil => rfl
  | cons e es ih => simp [List.foldl_cons, ih, TriggerHandler.routeEvent]

theorem foldl_routeEvent_hasEvents (es : List Event) (r : TriggerHandler) (hne : es ≠ []) :
    (es.foldl TriggerHandler.routeEvent r).hasEvents = true := by
  obtain ⟨init, e, rfl⟩ : ∃ init e, es = init ++ [e] :=
    ⟨es.dropLast, es.getLast hne, (List.dropLast_append_getLast hne).symm⟩
  simp [List.foldl_append, TriggerHandler.routeEvent]

theorem foldl_routeEvent_last (es : List Event) (r : TriggerHandler) (hne : es ≠ []) :
    (es.foldl TriggerHandler.routeEvent r).events (es.getLast hne).Component
      = some (es.getLast hne) := by
  have h := List.dropLast_append_getLast hne
  generalize es.getLast hne = e at h ⊢
  rw [← h]
  simp [List.foldl_append, TriggerHandler.routeEvent]

theorem foldl_routeEvent_other (es : List Event) (r : TriggerHandler) (k : String)
    (hk : ∀ e ∈ es, e.Component ≠ k) :
    (es.foldl TriggerHandler.routeEvent r).events k = r.events k := by
  induction es generalizing r with
  | nil => rfl
  | cons e es ih =>
    have hne : ¬ k = e.Component := fun h => hk e (List.mem_cons_self _ _) h.symm
    rw [List.foldl_cons, ih _ (fun e' he' => hk e' (List.mem_cons_of_mem _ he'))]
    simp [TriggerHandler.routeEvent, hne]

/-- The handler that the loop of `RecieveEvents` leaves is the start handler
with `routeEvent` applied to the routed events, in order. -/
theorem loop_handler (rs : List ChanId) (r : TriggerHandler) (w : World) (rem : List ChanId) :
    (TriggerHandler.RecieveEvents.loop rs r w rem).1
      = (TriggerHandler.RecieveEvents.routed rs w).foldl TriggerHandler.routeEvent r := by
  induction rs generalizing r w rem with
  | nil => rfl
  | cons c rest ih =>
    unfold TriggerHandler.RecieveEvents.loop TriggerHandler.RecieveEvents.routed
    cases hrecv : w.tryRecv c with
    | none => simp [ih]
    | some p =>
      obtain ⟨events, w1⟩ := p
      simp [ih, List.foldl_append]

theorem RecieveEvents_events (r : TriggerHandler) (w : World) :
    (r.RecieveEvents w).1.events
      = ((TriggerHandler.RecieveEvents.routed r.responders w).foldl
          TriggerHandler.routeEvent r).events := by
  simp [TriggerHandler.RecieveEvents, ← loop_handler r.responders r w []]

theorem RecieveEvents_hasEvents (r : TriggerHandler) (w : World) :
    (r.RecieveEvents w).1.hasEvents
      = ((TriggerHandler.RecieveEvents.routed r.responders w).foldl
          TriggerHandler.routeEvent r).hasEvents := by
  simp [TriggerHandler.RecieveEvents, ← loop_handler r.responders r w []]

theorem apply_events (r : TriggerHandler) (call : GatewayCall) :
    (call.apply r).events = ((call.routed r).foldl TriggerHandler.routeEvent r).events := by
  cases call with
  | PassEvent event => rfl
  | RecieveEvents w => exact RecieveEvents_events r w
  | MakeTrigger event w =>
    simp only [GatewayCall.apply, GatewayCall.routed, List.foldl_nil]
    cases h : r.MakeTrigger event w with
    | none => rfl
    | some p =>
      simp only [TriggerHandler.MakeTrigger] at h
      split at h
      · exact absurd h (by simp)
      · cases h; rfl

theorem apply_hasEvents (r : TriggerHandler) (call : GatewayCall) :
    (call.apply r).hasEvents
      = ((call.routed r).foldl TriggerHandler.routeEvent r).hasEvents := by
  cases call with
  | PassEvent event => rfl
  | RecieveEvents w => exact RecieveEvents_hasEvents r w
  | MakeTrigger event w =>
    simp only [GatewayCall.apply, GatewayCall.routed, List.foldl_nil]
    cases h : r.MakeTrigger event w with
    | none => rfl
    | some p =>
      simp only [TriggerHandler.MakeTrigger] at h
      split at h
      · exact absurd h (by simp)
      · cases h; rfl

theorem foldl_routeEvent_congr (es : List Event) (r r' : TriggerHandler)
    (he : r.events = r'.events) (hf : r.hasEvents = r'.hasEvents) :
    (es.foldl TriggerHandler.routeEvent r).events
        = (es.foldl TriggerHandler.routeEvent r').events
      ∧ (es.foldl TriggerHandler.routeEvent r).hasEvents
        = (es.foldl TriggerHandler.routeEvent r').hasEvents := by
  induction es generalizing r r' with
  | nil => exact ⟨he, hf⟩
  | cons e es ih =>
    simp only [List.foldl_cons]
    exact ih _ _ (by simp [TriggerHandler.routeEvent, he]) (by simp [TriggerHandler.routeEvent])

/-- The mailbox and the dirty flag after a sequence of calls are those of the
start handler with `routeEvent` applied to every routed event, in order. -/
theorem runCalls_mailbox (calls : List GatewayCall) (r : TriggerHandler) :
    (runCalls r calls).events = ((routedBy r calls).foldl TriggerHandler.routeEvent r).events
      ∧ (runCalls r calls).hasEvents
        = ((routedBy r calls).foldl TriggerHandler.routeEvent r).hasEvents := by
  induction calls generalizing r with
  | nil => exact ⟨rfl, rfl⟩
  | cons call calls ih =>
    simp only [runCalls, routedBy, List.foldl_append]
    obtain ⟨h1, h2⟩ := ih (call.apply r)
    obtain ⟨h3, h4⟩ := foldl_routeEvent_congr (routedBy (call.apply r) calls) (call.apply r)
      ((call.routed r).foldl TriggerHandler.routeEvent r) (apply_events r call)
      (apply_hasEvents r call)
    exact ⟨h1.trans h3, h2.trans h4⟩

theorem tryRecv_none_iff (w : World) (c : ChanId) : w.tryRecv c = none ↔ w.resp c = none := by
  unfold World.tryRecv
  cases h : w.resp c <;> simp

theorem tryRecv_some (w : World) (c : ChanId) (events : List Event) (w1 : World)
    (h : w.tryRecv c = some (events, w1)) :
    w.resp c = some events ∧ w1.resp = (fun c' => if c' = c then none else w.resp c')
      ∧ w1.tx = w.tx ∧ w1.nextChan = w.nextChan := by
  unfold World.tryRecv at h
  cases hr : w.resp c with
  | none => simp [hr] at h
  | some evs =>
    simp only [hr, Option.some.injEq, Prod.mk.injEq] at h
    obtain ⟨h1, h2⟩ := h
    subst h1 h2
    exact ⟨rfl, rfl, rfl, rfl⟩

theorem loop_append (pre post : List ChanId) (r : TriggerHandler) (w : World)
    (rem : List ChanId) :
    TriggerHandler.RecieveEvents.loop (pre ++ post) r w rem
      = TriggerHandler.RecieveEvents.loop post
          (TriggerHandler.RecieveEvents.loop pre r w rem).1
          (TriggerHandler.RecieveEvents.loop pre r w rem).2.1
          (TriggerHandler.RecieveEvents.loop pre r w rem).2.2 := by
  induction pre generalizing r w rem with
  | nil => rfl
  | cons c rest ih =>
    simp only [List.cons_append, TriggerHandler.RecieveEvents.loop]
    cases hrecv : w.tryRecv c with
    | none => simp [ih]
    | some p => obtain ⟨events, w1⟩ := p; simp [ih]

/-- The loop only ever appends to `remainingResponders`. -/
theorem loop_remaining_mono (rs : List ChanId) (r : TriggerHandler) (w : World)
    (rem : List ChanId) (x : ChanId) (hx : x ∈ rem) :
    x ∈ (TriggerHandler.RecieveEvents.loop rs r w rem).2.2 := by
  induction rs generalizing r w rem with
  | nil => exact hx
  | cons c rest ih =>
    simp only [TriggerHandler.RecieveEvents.loop]
    cases hrecv : w.tryRecv c with
    | none => exact ih _ _ _ (List.mem_append_left _ hx)
    | some p => obtain ⟨events, w1⟩ := p; exact ih _ _ _ hx

/-- A channel that is empty stays empty during the loop. -/
theorem loop_resp_none (rs : List ChanId) (r : TriggerHandler) (w : World)
    (rem : List ChanId) (x : ChanId) (hx : w.resp x = none) :
    (TriggerHandler.RecieveEvents.loop rs r w rem).2.1.resp x = none := by
  induction rs generalizing r w rem with
  | nil => exact hx
  | cons c rest ih =>
    simp only [TriggerHandler.RecieveEvents.loop]
    cases hrecv : w.tryRecv c with
    | none => exact ih _ _ _ hx
    | some p =>
      obtain ⟨events, w1⟩ := p
      obtain ⟨_, h2, _, _⟩ := tryRecv_some w c events w1 hrecv
      refine ih _ _ _ ?_
      rw [h2]; by_cases hxc : x = c <;> simp [hxc, hx]

/-- With no reply available the loop changes nothing and keeps every responder. -/
theorem loop_all_none (rs : List ChanId) (r : TriggerHandler) (w : World)
    (rem : List ChanId) (hnone : ∀ c ∈ rs, w.resp c = none) :
    TriggerHandler.RecieveEvents.loop rs r w rem = (r, w, rem ++ rs) := by
  induction rs generalizing rem with
  | nil => simp [TriggerHandler.RecieveEvents.loop]
  | cons c rest ih =>
    have hc : w.tryRecv c = none := (tryRecv_none_iff w c).2 (hnone c (List.mem_cons_self _ _))
    simp only [TriggerHandler.RecieveEvents.loop, hc]
    rw [ih _ (fun c' hc' => hnone c' (List.mem_cons_of_mem _ hc'))]
    simp

/-- On a FIFO without repeated channel, the loop sees every responder in the
state it had when the call began. -/
theorem loop_nodup (rs : List ChanId) (r : TriggerHandler) (w w0 : World) (rem : List ChanId)
    (hnd : rs.Nodup) (hagree : ∀ c ∈ rs, w.resp c = w0.resp c) :
    TriggerHandler.RecieveEvents.routed rs w = availableReplies rs w0
      ∧ (TriggerHandler.RecieveEvents.loop rs r w rem).2.2
          = rem ++ rs.filter (fun c => (w0.resp c).isNone) := by
  induction rs generalizing r w rem with
  | nil => simp [TriggerHandler.RecieveEvents.routed, TriggerHandler.RecieveEvents.loop,
      availableReplies]
  | cons c rest ih =>
    obtain ⟨hcrest, hndrest⟩ := List.nodup_cons.1 hnd
    have hc0 : w.resp c = w0.resp c := hagree c (List.mem_cons_self _ _)
    simp only [TriggerHandler.RecieveEvents.loop, TriggerHandler.RecieveEvents.routed]
    cases hrecv : w.tryRecv c with
    | none =>
      have hnone : w0.resp c = none := hc0 ▸ (tryRecv_none_iff w c).1 hrecv
      obtain ⟨h1, h2⟩ := ih r w (rem ++ [c]) hndrest
        (fun c' hc' => hagree c' (List.mem_cons_of_mem _ hc'))
      refine ⟨?_, ?_⟩
      · simp only [h1]; simp [availableReplies, hnone]
      · simp only [h2]; simp [List.filter_cons, hnone]
    | some p =>
      obtain ⟨events, w1⟩ := p
      obtain ⟨hsome, hw1, _, _⟩ := tryRecv_some w c events w1 hrecv
      have hsome0 : w0.resp c = some events := hc0 ▸ hsome
      have hagree1 : ∀ c' ∈ rest, w1.resp c' = w0.resp c' := by
        intro c' hc'
        have hne : c' ≠ c := fun h => hcrest (h ▸ hc')
        rw [hw1]; simp only [hne, if_false]
        exact hagree c' (List.mem_cons_of_mem _ hc')
      obtain ⟨h1, h2⟩ := ih (events.foldl TriggerHandler.routeEvent r) w1 rem hndrest hagree1
      refine ⟨?_, ?_⟩
      · simp only [h1]; simp [availableReplies, hsome0]
      · simp only [h2]; simp [List.filter_cons, hsome0]

/-- Every routed event comes from a reply that was available at the start. -/
theorem mem_routed (rs : List ChanId) (w : World) (e : Event)
    (he : e ∈ TriggerHandler.RecieveEvents.routed rs w) :
    ∃ c ∈ rs, ∃ events, w.resp c = some events ∧ e ∈ events := by
  induction rs generalizing w with
  | nil => simp [TriggerHandler.RecieveEvents.routed] at he
  | cons c0 rest ih =>
    simp only [TriggerHandler.RecieveEvents.routed] at he
    cases hrecv : w.tryRecv c0 with
    | none =>
      simp only [hrecv] at he
      obtain ⟨c, hc, events, hev, hmem⟩ := ih w he
      exact ⟨c, List.mem_cons_of_mem _ hc, events, hev, hmem⟩
    | some p =>
      obtain ⟨events0, w1⟩ := p
      simp only [hrecv, List.mem_append] at he
      obtain ⟨hsome, hw1, _, _⟩ := tryRecv_some w c0 events0 w1 hrecv
      rcases he with he | he
      · exact ⟨c0, List.mem_cons_self _ _, events0, hsome, he⟩
      · obtain ⟨c, hc, events, hev, hmem⟩ := ih w1 he
        rw [hw1] at hev
        by_cases hcc : c = c0
        · simp [hcc] at hev
        · simp only [hcc, if_false] at hev
          exact ⟨c, List.mem_cons_of_mem _ hc, events, hev, hmem⟩

/-- The reply of a responder of the FIFO is routed as one block, and what is
routed after it comes from replies of other responders. -/
theorem routed_split (rs : List ChanId) (w : World) (c : ChanId) (reply : List Event)
    (hc : c ∈ rs) (hreply : w.resp c = some reply) :
    ∃ before after, TriggerHandler.RecieveEvents.routed rs w = before ++ reply ++ after
      ∧ ∀ e ∈ after, ∃ c' ∈ rs, c' ≠ c ∧ ∃ events, w.resp c' = some events ∧ e ∈ events := by
  induction rs generalizing w with
  | nil => simp at hc
  | cons c0 rest ih =>
    simp only [TriggerHandler.RecieveEvents.routed]
    by_cases hcc : c0 = c
    · subst hcc
      have hrecv : w.tryRecv c0
          = some (reply, { w with resp := fun c' => if c' = c0 then none else w.resp c' }) := by
        simp [World.tryRecv, hreply]
      simp only [hrecv]
      refine ⟨[], _, rfl, ?_⟩
      intro e he
      obtain ⟨c', hc', events, hev, hmem⟩ := mem_routed _ _ e he
      by_cases hcc' : c' = c0
      · simp [hcc'] at hev
      · simp only [hcc', if_false] at hev
        exact ⟨c', List.mem_cons_of_mem _ hc', hcc', events, hev, hmem⟩
    · have hcrest : c ∈ rest := by
        rcases List.mem_cons.1 hc with h | h
        · exact absurd h.symm hcc
        · exact h
      cases hrecv : w.tryRecv c0 with
      | none =>
        obtain ⟨before, after, hsplit, hafter⟩ := ih w hcrest hreply
        refine ⟨before, after, hsplit, ?_⟩
        intro e he
        obtain ⟨c', hc', hne, events, hev, hmem⟩ := hafter e he
        exact ⟨c', List.mem_cons_of_mem _ hc', hne, events, hev, hmem⟩
      | some p =>
        obtain ⟨events0, w1⟩ := p
        obtain ⟨_, hw1, _, _⟩ := tryRecv_some w c0 events0 w1 hrecv
        have hreply1 : w1.resp c = some reply := by
          rw [hw1]; simp only [Ne.symm hcc, if_false]; exact hreply
        obtain ⟨before, after, hsplit, hafter⟩ := ih w1 hcrest hreply1
        refine ⟨events0 ++ before, after, by simp [hsplit], ?_⟩
        intro e he
        obtain ⟨c', hc', hne, events, hev, hmem⟩ := hafter e he
        rw [hw1] at hev
        by_cases hcc' : c' = c0
        · simp [hcc'] at hev
        · simp only [hcc', if_false] at hev
          exact ⟨c', List.mem_cons_of_mem _ hc', hne, events, hev, hmem⟩

/-- A FIFO without repeated channel stays so across `RecieveEvents`. -/
theorem RecieveEvents_nodup (r : TriggerHandler) (w : World) (hnd : r.responders.Nodup) :
    (r.RecieveEvents w).1.responders.Nodup := by
  obtain ⟨_, hrem⟩ := loop_nodup r.responders r w w [] hnd (fun _ _ => rfl)
  simp only [TriggerHandler.RecieveEvents, hrem, List.nil_append]
  exact hnd.filter _

/-- The responder that `MakeTrigger` appends is a channel made in that call, so
a FIFO of distinct, already made channels stays one. -/
theorem MakeTrigger_nodup (r r1 : TriggerHandler) (event : Event) (w w1 : World)
    (hmake : r.MakeTrigger event w = some (r1, w1))
    (hnd : r.responders.Nodup) (hmade : ∀ c ∈ r.responders, c < w.nextChan) :
    r1.responders.Nodup ∧ ∀ c ∈ r1.responders, c < w1.nextChan := by
  simp only [TriggerHandler.MakeTrigger, NewTrigger, World.makeChan, World.sendTx] at hmake
  split at hmake
  · exact absurd hmake (by simp)
  · rename_i w2 hsend
    split at hsend
    · simp only [Option.some.injEq, Prod.mk.injEq] at hmake hsend
      obtain ⟨hr1, hw1⟩ := hmake
      subst hr1 hw1 hsend
      refine ⟨?_, ?_⟩
      · refine List.Nodup.append hnd (List.nodup_singleton _) ?_
        intro c hc hc'
        have hlt : c < w.nextChan := hmade c hc
        simp only [List.mem_singleton] at hc'
        rw [hc'] at hlt
        exact Nat.not_succ_lt_self hlt
      · intro c hc
        rcases List.mem_append.1 hc with h | h
        · exact Nat.lt_succ_of_lt (Nat.lt_succ_of_lt (hmade c h))
        · simp only [List.mem_singleton] at h
          rw [h]
          exact Nat.lt_succ_self _
    · exact absurd hsend (by simp)

/-! ## Lemmas on `handleTrigger` and `Server.Run` -/

theorem handleTrigger_true_iff (ext : External) (s : Server) (t : Trigger) :
    (s.handleTrigger ext t).result = Outcome.returned true ↔ t.Component = COMPONENT_QUIT := by
  unfold Server.handleTrigger
  by_cases h1 : t.Component = COMPONENT_HEADER
  · have hq : ¬ t.Component = COMPONENT_QUIT := by rw [h1]; decide
    rw [if_pos h1]
    simp only [Exec.thenReturn, hq, iff_false]
    cases (s.handleHeaderTrigger t).result <;> simp
  · by_cases h2 : t.Component = COMPONENT_CHANGE_PROFILE
    · have hq : ¬ t.Component = COMPONENT_QUIT := by rw [h2]; decide
      rw [if_neg h1, if_pos h2]
      simp only [Exec.thenReturn, hq, iff_false]
      cases (s.handleSwitchProfileView ext t).result <;> simp
    · by_cases h3 : t.Component = COMPONENT_REFRESH_SSO
      · have hq : ¬ t.Component = COMPONENT_QUIT := by rw [h3]; decide
        rw [if_neg h1, if_neg h2, if_pos h3]
        simp only [Exec.thenReturn, hq, iff_false]
        cases (s.handleRefreshSSO ext t).result <;> simp
      · by_cases h4 : t.Component = COMPONENT_QUIT
        · rw [if_neg h1, if_neg h2, if_neg h3, if_pos h4]
          simp [h4]
        · rw [if_neg h1, if_neg h2, if_neg h3, if_neg h4]
          simp [h4]

theorem handleTrigger_quit (ext : External) (s : Server) (t : Trigger)
    (hq : t.Component = COMPONENT_QUIT) :
    (s.handleTrigger ext t).sent = [[terminalEvent]] ∧ (s.handleTrigger ext t).server = s := by
  have h1 : ¬ t.Component = COMPONENT_HEADER := by rw [hq]; decide
  have h2 : ¬ t.Component = COMPONENT_CHANGE_PROFILE := by rw [hq]; decide
  have h3 : ¬ t.Component = COMPONENT_REFRESH_SSO := by rw [hq]; decide
  unfold Server.handleTrigger
  rw [if_neg h1, if_neg h2, if_neg h3, if_pos hq]
  exact ⟨rfl, rfl⟩

/-- All sends of a run go through exactly when `sendAll` gives the channels. -/
theorem sendUntilFull_sendAll (sent : List (List Event)) (w w1 : World) (responder : ChanId) :
    w.sendAll responder sent = some w1 ↔ w.sendUntilFull responder sent = (w1, []) := by
  induction sent generalizing w with
  | nil => simp [World.sendAll, World.sendUntilFull]
  | cons events rest ih =>
    simp only [World.sendAll, World.sendUntilFull]
    cases hsend : w.send responder events with
    | none => simp
    | some w2 => exact ih w2

/-- A run that handled all of `pre` and waits continues with what arrives next. -/
theorem Run_append (pre rest : List (External × Trigger)) (s : Server) (w : World)
    (hwait : (s.Run w pre).ending = RunEnd.waiting) :
    (s.Run w (pre ++ rest)).handled
        = (s.Run w pre).handled ++ ((s.Run w pre).server.Run (s.Run w pre).world rest).handled
      ∧ (s.Run w (pre ++ rest)).abandoned
        = ((s.Run w pre).server.Run (s.Run w pre).world rest).abandoned
      ∧ (s.Run w (pre ++ rest)).ending
        = ((s.Run w pre).server.Run (s.Run w pre).world rest).ending
      ∧ (s.Run w (pre ++ rest)).server
        = ((s.Run w pre).server.Run (s.Run w pre).world rest).server
      ∧ (s.Run w (pre ++ rest)).world
        = ((s.Run w pre).server.Run (s.Run w pre).world rest).world := by
  induction pre generalizing s w with
  | nil => simp [Server.Run]
  | cons p pre ih =>
    obtain ⟨ext, trigger⟩ := p
    simp only [List.cons_append, Server.Run] at hwait ⊢
    cases hsend : w.sendUntilFull trigger.Responder (s.handleTrigger ext trigger).sent with
    | mk w1 pending =>
      cases pending with
      | cons events pending => simp [hsend] at hwait
      | nil =>
        simp only [hsend] at hwait ⊢
        cases hres : (s.handleTrigger ext trigger).result with
        | panicked fault => simp [hres] at hwait
        | returned ended =>
          cases ended with
          | true => simp [hres] at hwait
          | false =>
            simp only [hres, Bool.false_eq_true, if_false] at hwait ⊢
            obtain ⟨h1, h2, h3, h4, h5⟩ := ih (s.handleTrigger ext trigger).server w1 hwait
            exact ⟨by simp [h1], h2, h3, h4, h5⟩

/-- Without a quit trigger, without a panic and without a send that waits, a
run handles everything that arrived and then waits in the receive. -/
theorem Run_all_handled (pre : List (External × Trigger)) (s : Server) (w : World)
    (hfirst : ∀ p ∈ pre, p.2.Component ≠ COMPONENT_QUIT)
    (hsafe : ∀ fault, (s.Run w pre).ending ≠ RunEnd.crashed fault)
    (hflow : ∀ trigger pending, (s.Run w pre).ending ≠ RunEnd.blocked trigger pending) :
    (s.Run w pre).ending = RunEnd.waiting
      ∧ (s.Run w pre).handled.map Prod.fst = pre.map Prod.snd := by
  induction pre generalizing s w with
  | nil => simp [Server.Run]
  | cons p pre ih =>
    obtain ⟨ext, trigger⟩ := p
    have hnq : trigger.Component ≠ COMPONENT_QUIT := hfirst (ext, trigger) (List.mem_cons_self _ _)
    simp only [Server.Run] at hsafe hflow ⊢
    cases hsend : w.sendUntilFull trigger.Responder (s.handleTrigger ext trigger).sent with
    | mk w1 pending =>
      cases pending with
      | cons events pending =>
        simp only [hsend] at hflow
        exact absurd rfl (hflow trigger (events :: pending))
      | nil =>
        simp only [hsend] at hsafe hflow ⊢
        cases hres : (s.handleTrigger ext trigger).result with
        | panicked fault =>
          simp only [hres] at hsafe
          exact absurd rfl (hsafe fault)
        | returned ended =>
          cases ended with
          | true => exact absurd ((handleTrigger_true_iff ext s trigger).1 hres) hnq
          | false =>
            simp only [hres, Bool.false_eq_true, if_false] at hsafe hflow ⊢
            obtain ⟨h1, h2⟩ := ih (s.handleTrigger ext trigger).server w1
              (fun p hp => hfirst p (List.mem_cons_of_mem _ hp)) hsafe hflow
            exact ⟨h1, by simp [h2]⟩

/-! ## Lemmas on reachable gateways and on the dispatch loop -/

theorem foldl_routeEvent_keyed (es : List Event) (r : TriggerHandler) (hk : Keyed r.events) :
    Keyed (es.foldl TriggerHandler.routeEvent r).events := by
  induction es generalizing r with
  | nil => exact hk
  | cons e es ih =>
    refine ih (r.routeEvent e) ?_
    intro k ev hev
    simp only [TriggerHandler.routeEvent] at hev
    by_cases hke : k = e.Component
    · simp only [hke, if_true, Option.some.injEq] at hev
      rw [← hev, hke]
    · simp only [hke, if_false] at hev
      exact hk k ev hev

theorem GetEvents_events (r : TriggerHandler) :
    r.GetEvents.1.events = (fun _ => none) ∨ r.GetEvents.1.events = r.events := by
  unfold TriggerHandler.GetEvents
  cases h : r.hasEvents <;> simp

/-- In a reachable gateway every mailbox entry sits under its own Component. -/
theorem reachable_keyed (r : TriggerHandler) (hr : Reachable r) : Keyed r.events := by
  induction hr with
  | init => intro k e h; simp [NewTriggerHandler] at h
  | call r c _ ih =>
    rw [apply_events]
    exact foldl_routeEvent_keyed _ r ih
  | getEvents r _ ih =>
    rcases GetEvents_events r with h | h
    · rw [h]; intro k e hke; simp at hke
    · rw [h]; exact ih

theorem update_components (m : EventMap) (subs : List (String × Renderable)) :
    (AppHandle.RunEventHandler.update m subs).map RenderCall.component
      = (subs.map Prod.fst).filter (fun c => (m c).isSome) := by
  induction subs with
  | nil => rfl
  | cons p subs ih =>
    obtain ⟨c, sub⟩ := p
    simp only [AppHandle.RunEventHandler.update, List.map_cons, List.filter_cons]
    cases hm : m c with
    | none => simpa [hm] using ih
    | some e => simpa [hm] using ih

theorem mem_update (m : EventMap) (subs : List (String × Renderable)) (call : RenderCall) :
    call ∈ AppHandle.RunEventHandler.update m subs
      ↔ (call.component, call.sub) ∈ subs ∧ m call.component = some call.event := by
  induction subs with
  | nil => simp [AppHandle.RunEventHandler.update]
  | cons p subs ih =>
    obtain ⟨c, sub⟩ := p
    simp only [AppHandle.RunEventHandler.update]
    cases hm : m c with
    | none =>
      simp only [ih, List.mem_cons, Prod.mk.injEq]
      constructor
      · rintro ⟨h1, h2⟩; exact ⟨Or.inr h1, h2⟩
      · rintro ⟨h1 | h1, h2⟩
        · rw [h1.1, hm] at h2; cases h2
        · exact ⟨h1, h2⟩
    | some e =>
      simp only [List.mem_cons, ih, Prod.mk.injEq]
      constructor
      · rintro (h | ⟨h1, h2⟩)
        · subst h; exact ⟨Or.inl ⟨rfl, rfl⟩, hm⟩
        · exact ⟨Or.inr h1, h2⟩
      · rintro ⟨⟨h1, h2⟩ | h1, h3⟩
        · left
          rw [h1, hm] at h3
          cases call
          simp only [Option.some.injEq] at h3
          simp_all
        · exact Or.inr ⟨h1, h3⟩

/-- The iteration of `RunEventHandler`, by the pair that `GetEvents` returns. -/
theorem iteration_cases (a : AppHandle) (w : World) :
    ((a.triggerHandler.RecieveEvents w).1.GetEvents.2.1 = false →
        (AppHandle.RunEventHandler.iteration a w).returned = false
          ∧ (AppHandle.RunEventHandler.iteration a w).rendered = [])
      ∧ (∀ m, (a.triggerHandler.RecieveEvents w).1.GetEvents.2 = (true, some m) →
          ((m COMPONENT_QUIT).isSome = true →
            (AppHandle.RunEventHandler.iteration a w).returned = true
              ∧ (AppHandle.RunEventHandler.iteration a w).rendered = [])
          ∧ (m COMPONENT_QUIT = none →
            (AppHandle.RunEventHandler.iteration a w).returned = false
              ∧ (AppHandle.RunEventHandler.iteration a w).rendered
                  = AppHandle.RunEventHandler.update m a.subscriptions)) := by
  refine ⟨?_, ?_⟩
  · intro h
    simp [AppHandle.RunEventHandler.iteration, h]
  · intro m hm
    have h1 : (a.triggerHandler.RecieveEvents w).1.GetEvents.2.1 = true := by rw [hm]
    have h2 : (a.triggerHandler.RecieveEvents w).1.GetEvents.2.2 = some m := by rw [hm]
    refine ⟨?_, ?_⟩
    · intro hq
      cases hmq : m COMPONENT_QUIT with
      | none => simp [hmq] at hq
      | some e => simp [AppHandle.RunEventHandler.iteration, h1, h2, hmq]
    · intro hq
      simp [AppHandle.RunEventHandler.iteration, h1, h2, hq]

theorem mapAssign_keys (component : String) (sub : Renderable)
    (subs : List (String × Renderable)) :
    (mapAssign component sub subs).map Prod.fst
      = if component ∈ subs.map Prod.fst then subs.map Prod.fst
        else subs.map Prod.fst ++ [component] := by
  induction subs with
  | nil => simp [mapAssign]
  | cons p subs ih =>
    obtain ⟨k, v⟩ := p
    simp only [mapAssign]
    by_cases hk : k = component
    · simp [hk]
    · have hk1 : ¬ component = k := fun h => hk h.symm
      simp only [hk, if_false, List.map_cons, ih, List.mem_cons, hk1, false_or]
      by_cases hmem : component ∈ subs.map Prod.fst
      · simp [hmem]
      · simp [hmem]

/-- `SetSubscription` keeps the subscriptions a map: one entry per name. -/
theorem SetSubscription_keys_nodup (a : AppHandle) (component : String) (sub : Renderable)
    (hkeys : (a.subscriptions.map Prod.fst).Nodup) :
    ((a.SetSubscription component sub).subscriptions.map Prod.fst).Nodup := by
  simp only [AppHandle.SetSubscription, mapAssign_keys]
  by_cases hmem : component ∈ a.subscriptions.map Prod.fst
  · rw [if_pos hmem]; exact hkeys
  · rw [if_neg hmem]
    refine List.Nodup.append hkeys (List.nodup_singleton _) ?_
    intro x hx hx1
    rw [List.mem_singleton] at hx1
    exact hmem (hx1 ▸ hx)

theorem GetEvents_batch (r : TriggerHandler) (m : EventMap)
    (h : r.GetEvents.2 = (true, some m)) : m = r.events := by
  unfold TriggerHandler.GetEvents at h
  cases hf : r.hasEvents with
  | false => simp [hf] at h
  | true =>
    simp only [hf, if_true, Prod.mk.injEq, Option.some.injEq, true_and] at h
    exact h.symm

/-! ## Lemmas on profile enumeration -/

theorem bracketed_of_affixes (line : String)
    (hpre : strings_HasPrefix line "[profile " = true)
    (hsuf : strings_HasSuffix line "]" = true) :
    line = "[profile " ++ strings_TrimSuffix (strings_TrimPrefix line "[profile ") "]" ++ "]" := by
  have hp : "[profile ".data <+: line.data := List.isPrefixOf_iff_prefix.1 hpre
  have hs : "]".data <:+ line.data := List.isSuffixOf_iff_suffix.1 hsuf
  obtain ⟨rest, hrest⟩ := hp
  obtain ⟨init, hinit⟩ := hs
  have hdrop : line.data.drop "[profile ".data.length = rest := by
    rw [← hrest, List.drop_left]
  have hne : rest ≠ [] := by
    intro h
    rw [h, List.append_nil] at hrest
    rw [← hrest] at hinit
    have := congrArg List.getLast? hinit
    simp at this
  obtain ⟨rest1, hrest1⟩ : ∃ rest1, rest = rest1 ++ "]".data := by
    refine ⟨rest.dropLast, ?_⟩
    have h1 := List.dropLast_append_getLast hne
    have h2 : rest.getLast hne = Char.ofNat 93 := by
      have h3 : (line.data).getLast? = some (rest.getLast hne) := by
        rw [← hrest, List.getLast?_append_of_ne_nil _ hne, List.getLast?_eq_getLast _ hne]
      rw [← hinit] at h3
      simp at h3
      rw [← h3]
    rw [h2] at h1
    exact h1.symm
  have htp : strings_TrimPrefix line "[profile " = ⟨rest⟩ := by
    simp only [strings_TrimPrefix, hpre, if_true, hdrop]
  have hsuf1 : strings_HasSuffix ⟨rest⟩ "]" = true := by
    simp only [strings_HasSuffix]
    exact List.isSuffixOf_iff_suffix.2 ⟨rest1, hrest1.symm⟩
  have hts : strings_TrimSuffix ⟨rest⟩ "]" = ⟨rest1⟩ := by
    simp only [strings_TrimSuffix, hsuf1, if_true]
    congr 1
    rw [hrest1]
    simp
  rw [htp, hts]
  apply String.ext
  simp only [String.data_append]
  rw [← hrest, hrest1, List.append_assoc]

theorem affixes_of_bracketed (name : String) :
    strings_HasPrefix ("[profile " ++ name ++ "]") "[profile " = true
      ∧ strings_HasSuffix ("[profile " ++ name ++ "]") "]" = true
      ∧ strings_TrimSuffix (strings_TrimPrefix ("[profile " ++ name ++ "]") "[profile ") "]"
          = name := by
  have hpre : strings_HasPrefix ("[profile " ++ name ++ "]") "[profile " = true := by
    simp only [strings_HasPrefix, String.data_append, List.append_assoc]
    exact List.isPrefixOf_iff_prefix.2 (List.prefix_append _ _)
  have hsuf : strings_HasSuffix ("[profile " ++ name ++ "]") "]" = true := by
    simp only [strings_HasSuffix, String.data_append]
    exact List.isSuffixOf_iff_suffix.2 (List.suffix_append _ _)
  have htp : strings_TrimPrefix ("[profile " ++ name ++ "]") "[profile " = name ++ "]" := by
    simp only [strings_TrimPrefix, hpre, if_true]
    apply String.ext
    simp only [String.data_append, List.append_assoc, List.drop_left]
  have hsuf1 : strings_HasSuffix (name ++ "]") "]" = true := by
    simp only [strings_HasSuffix, String.data_append]
    exact List.isSuffixOf_iff_suffix.2 (List.suffix_append _ _)
  refine ⟨hpre, hsuf, ?_⟩
  rw [htp]
  simp only [strings_TrimSuffix, hsuf1, if_true]
  apply String.ext
  simp [String.data_append]

theorem bracketed_inj (a b : String)
    (h : "[profile " ++ a ++ "]" = "[profile " ++ b ++ "]") : a = b := by
  have h1 := congrArg String.data h
  simp only [String.data_append, List.append_assoc] at h1
  exact String.ext (List.append_cancel_right (List.append_cancel_left h1))

theorem mem_scanLine (profiles : List String) (text name : String) :
    name ∈ getProfilesFromFile.scanLine profiles text
      ↔ name ∈ profiles ∨ namesProfile text name := by
  unfold getProfilesFromFile.scanLine namesProfile
  by_cases haff : (strings_HasPrefix (strings_TrimSpace text) "[profile "
      && strings_HasSuffix (strings_TrimSpace text) "]") = true
  · simp only [haff, if_true]
    rw [Bool.and_eq_true] at haff
    have hline := bracketed_of_affixes _ haff.1 haff.2
    generalize strings_TrimSuffix (strings_TrimPrefix (strings_TrimSpace text) "[profile ") "]"
      = profile at hline ⊢
    by_cases hempty : profile = ""
    · simp only [hempty, ne_eq, not_true_eq_false, if_false]
      constructor
      · exact Or.inl
      · rintro (h | ⟨hne, heq⟩)
        · exact h
        · exfalso
          rw [hline] at heq
          exact hne ((bracketed_inj _ _ heq).symm.trans hempty)
    · simp only [ne_eq, hempty, not_false_eq_true, if_true, List.mem_append, List.mem_singleton]
      constructor
      · rintro (h | h)
        · exact Or.inl h
        · right; subst h; exact ⟨hempty, hline⟩
      · rintro (h | ⟨hne, heq⟩)
        · exact Or.inl h
        · right
          rw [hline] at heq
          exact (bracketed_inj _ _ heq).symm
  · simp only [haff, Bool.false_eq_true, if_false]
    constructor
    · exact Or.inl
    · rintro (h | ⟨hne, heq⟩)
      · exact h
      · exfalso
        apply haff
        rw [heq, Bool.and_eq_true]
        exact ⟨(affixes_of_bracketed name).1, (affixes_of_bracketed name).2.1⟩

theorem mem_foldl_scanLine (lines : List String) (profiles : List String) (name : String) :
    name ∈ lines.foldl getProfilesFromFile.scanLine profiles
      ↔ name ∈ profiles ∨ ∃ text ∈ lines, namesProfile text name := by
  induction lines generalizing profiles with
  | nil => simp
  | cons text lines ih =>
    rw [List.foldl_cons, ih, mem_scanLine]
    constructor
    · rintro ((h | h) | ⟨t, ht, h⟩)
      · exact Or.inl h
      · exact Or.inr ⟨text, List.mem_cons_self _ _, h⟩
      · exact Or.inr ⟨t, List.mem_cons_of_mem _ ht, h⟩
    · rintro (h | ⟨t, ht, h⟩)
      · exact Or.inl (Or.inl h)
      · rcases List.mem_cons.1 ht with heq | hmem
        · subst heq; exact Or.inl (Or.inr h)
        · exact Or.inr ⟨t, hmem, h⟩

theorem addAll_spec (found profiles : List String) (hnd : profiles.Nodup) :
    (GetAvailableProfiles.addAll profiles found).Nodup
      ∧ ∀ name, name ∈ GetAvailableProfiles.addAll profiles found
          ↔ name ∈ profiles ∨ name ∈ found := by
  induction found generalizing profiles with
  | nil => simp [GetAvailableProfiles.addAll, hnd]
  | cons profile found ih =>
    simp only [GetAvailableProfiles.addAll, List.foldl_cons]
    by_cases hmem : profile ∈ profiles
    · simp only [hmem, if_true]
      obtain ⟨h1, h2⟩ := ih profiles hnd
      refine ⟨h1, ?_⟩
      intro name
      have h3 := h2 name
      simp only [GetAvailableProfiles.addAll] at h3
      rw [h3, List.mem_cons]
      constructor
      · rintro (h | h)
        · exact Or.inl h
        · exact Or.inr (Or.inr h)
      · rintro (h | h | h)
        · exact Or.inl h
        · subst h; exact Or.inl hmem
        · exact Or.inr h
    · simp only [hmem, if_false]
      have hnd1 : (profiles ++ [profile]).Nodup := by
        refine List.Nodup.append hnd (List.nodup_singleton _) ?_
        intro x hx hx1
        rw [List.mem_singleton] at hx1
        exact hmem (hx1 ▸ hx)
      obtain ⟨h1, h2⟩ := ih (profiles ++ [profile]) hnd1
      refine ⟨h1, ?_⟩
      intro name
      have h3 := h2 name
      simp only [GetAvailableProfiles.addAll] at h3
      rw [h3, List.mem_append, List.mem_singleton, List.mem_cons]
      constructor
      · rintro ((h | h) | h)
        · exact Or.inl h
        · exact Or.inr (Or.inl h)
        · exact Or.inr (Or.inr h)
      · rintro (h | h | h)
        · exact Or.inl (Or.inl h)
        · exact Or.inl (Or.inr h)
        · exact Or.inr h

theorem GetAvailableProfiles_eq (os : Os) :
    GetAvailableProfiles os
      = GetAvailableProfiles.addAll
          (GetAvailableProfiles.addAll [] (extractedProfiles os (credentialFileOf os)))
          (extractedProfiles os (configFileOf os)) := by
  unfold GetAvailableProfiles extractedProfiles credentialFileOf configFileOf
  cases h1 : getProfilesFromFile os
      (if os.Getenv "AWS_SHARED_CREDENTIALS_FILE" = "" then os.DefaultSharedCredentialsFilename
       else os.Getenv "AWS_SHARED_CREDENTIALS_FILE") <;>
    cases h2 : getProfilesFromFile os
      (if os.Getenv "AWS_CONFIG_FILE" = "" then os.DefaultSharedConfigFilename
       else os.Getenv "AWS_CONFIG_FILE") <;>
    simp [GetAvailableProfiles.addAll, h1, h2]

/-! ## Lemmas on the lock discipline -/

theorem lockCheck_routed (ok : Bool → Step → Bool)
    (hw1 : ok true Step.writeEvents = true) (hw2 : ok true Step.writeHasEvents = true)
    (events : List Event) (tail : List Step) :
    lockCheck ok false (events.flatMap (fun _ => TriggerHandler.routeEvent.steps) ++ tail)
      = lockCheck ok false tail := by
  induction events with
  | nil => rfl
  | cons e events ih =>
    rw [List.flatMap_cons, List.append_assoc]
    show lockCheck ok false (Step.lock :: Step.writeEvents :: Step.writeHasEvents :: Step.unlock
      :: (events.flatMap (fun _ => TriggerHandler.routeEvent.steps) ++ tail)) = _
    simp only [lockCheck, hw1, hw2, Bool.true_and]
    exact ih

theorem lockCheck_loopSteps (ok : Bool → Step → Bool)
    (hrecv : ∀ c, ok false (Step.tryRecv c) = true)
    (hw1 : ok true Step.writeEvents = true) (hw2 : ok true Step.writeHasEvents = true)
    (rs : List ChanId) (w : World) (tail : List Step) :
    lockCheck ok false (TriggerHandler.RecieveEvents.loopSteps rs w ++ tail)
      = lockCheck ok false tail := by
  induction rs generalizing w with
  | nil => rfl
  | cons c rest ih =>
    unfold TriggerHandler.RecieveEvents.loopSteps
    cases hrv : w.tryRecv c with
    | none =>
      show lockCheck ok false (Step.tryRecv c
        :: (TriggerHandler.RecieveEvents.loopSteps rest w ++ tail)) = _
      simp only [lockCheck, hrecv, Bool.true_and]
      exact ih w
    | some p =>
      obtain ⟨events, w1⟩ := p
      show lockCheck ok false (Step.tryRecv c
        :: ((events.flatMap (fun _ => TriggerHandler.routeEvent.steps)
              ++ TriggerHandler.RecieveEvents.loopSteps rest w1) ++ tail)) = _
      simp only [lockCheck, hrecv, Bool.true_and]
      rw [List.append_assoc, lockCheck_routed ok hw1 hw2]
      exact ih w1

theorem lockCheck_RecieveEvents (ok : Bool → Step → Bool)
    (hrecv : ∀ c, ok false (Step.tryRecv c) = true)
    (hw1 : ok true Step.writeEvents = true) (hw2 : ok true Step.writeHasEvents = true)
    (hread : ok false Step.readResponders = true)
    (hwrite : ok false Step.writeResponders = true)
    (r : TriggerHandler) (w : World) :
    lockCheck ok false (TriggerHandler.RecieveEvents.steps r w) = true := by
  show lockCheck ok false (Step.readResponders :: Step.readResponders
    :: (TriggerHandler.RecieveEvents.loopSteps r.responders w ++ [Step.writeResponders])) = true
  simp only [lockCheck, hread, Bool.true_and]
  rw [lockCheck_loopSteps ok hrecv hw1 hw2]
  simp only [lockCheck, hwrite, Bool.and_self]

/-! ## The mailbox: `PassEvent`, `RecieveEvents`, `GetEvents` -/

/-- C1: after any sequence of `PassEvent` and `RecieveEvents` calls (no
`GetEvents` among them) that wrote at least one event, all written events
having the same Component `c`, the next `GetEvents` returns `true` and a map
whose slot for `c` holds the last event written. -/
theorem last_write_wins (r : TriggerHandler) (calls : List GatewayCall) (c : String)
    (hne : routedBy r calls ≠ [])
    (hc : ∀ e ∈ routedBy r calls, e.Component = c) :
    ∃ m, (runCalls r calls).GetEvents.2 = (true, some m)
      ∧ m c = some ((routedBy r calls).getLast hne) := by
  obtain ⟨hev, hflag⟩ := runCalls_mailbox calls r
  have hset : (runCalls r calls).hasEvents = true := by
    rw [hflag]; exact foldl_routeEvent_hasEvents _ r hne
  refine ⟨(runCalls r calls).events, ?_, ?_⟩
  · simp [TriggerHandler.GetEvents, hset]
  · rw [hev, ← hc _ (List.getLast_mem hne)]
    exact foldl_routeEvent_last _ r hne

theorem last_write_wins_witness :
    ∃ m, (runCalls busyHandler
            [GatewayCall.PassEvent (modalEvent "A"),
             GatewayCall.RecieveEvents replyWorld]).GetEvents.2 = (true, some m)
      ∧ m COMPONENT_ERROR_MODAL = some (modalEvent "B") :=
  last_write_wins busyHandler
    [GatewayCall.PassEvent (modalEvent "A"), GatewayCall.RecieveEvents replyWorld]
    COMPONENT_ERROR_MODAL (by decide) (by decide)

/-- C3: a `GetEvents` call that follows another `GetEvents` call, with only
gateway calls that route no event in between, returns `(false, nil)`. -/
theorem no_double_delivery (r : TriggerHandler) (calls : List GatewayCall)
    (hquiet : routedBy r.GetEvents.1 calls = []) :
    (runCalls r.GetEvents.1 calls).GetEvents.2 = (false, none) := by
  obtain ⟨_, hflag⟩ := runCalls_mailbox calls r.GetEvents.1
  have hclear : r.GetEvents.1.hasEvents = false := by
    unfold TriggerHandler.GetEvents
    cases h : r.hasEvents <;> simp [h]
  have hoff : (runCalls r.GetEvents.1 calls).hasEvents = false := by
    rw [hflag, hquiet]; exact hclear
  generalize runCalls r.GetEvents.1 calls = r' at hoff
  simp [TriggerHandler.GetEvents, hoff]

theorem no_double_delivery_witness :
    (runCalls busyHandler.GetEvents.1
        [GatewayCall.MakeTrigger closeModalEvent quietWorld,
         GatewayCall.RecieveEvents quietWorld]).GetEvents.2 = (false, none) :=
  no_double_delivery busyHandler
    [GatewayCall.MakeTrigger closeModalEvent quietWorld, GatewayCall.RecieveEvents quietWorld]
    (by decide)

/-- C4: with the dirty flag set, `GetEvents` returns `true` and the whole
mailbox as it was, and leaves an empty mailbox and a cleared flag; with the
flag not set it returns `(false, nil)` and leaves the handler as it was.  The
FIFO of pending responders is the same after the call in both cases. -/
theorem GetEvents_take (r : TriggerHandler) :
    (r.hasEvents = true →
        r.GetEvents.2 = (true, some r.events)
          ∧ r.GetEvents.1.events = (fun _ => none)
          ∧ r.GetEvents.1.hasEvents = false)
      ∧ (r.hasEvents = false →
        r.GetEvents.2 = (false, none)
          ∧ r.GetEvents.1.events = r.events
          ∧ r.GetEvents.1.hasEvents = r.hasEvents)
      ∧ r.GetEvents.1.responders = r.responders := by
  unfold TriggerHandler.GetEvents
  cases h : r.hasEvents <;> simp [h]

theorem GetEvents_take_witness :
    (busyHandler.GetEvents.2 = (true, some busyHandler.events)
        ∧ busyHandler.GetEvents.1.events = (fun _ => none)
        ∧ busyHandler.GetEvents.1.hasEvents = false)
      ∧ (idleHandler.GetEvents.2 = (false, none)
        ∧ idleHandler.GetEvents.1.events = idleHandler.events
        ∧ idleHandler.GetEvents.1.hasEvents = idleHandler.hasEvents) :=
  ⟨(GetEvents_take busyHandler).1 rfl, (GetEvents_take idleHandler).2.1 rfl⟩

/-- C5: `RecieveEvents` is a total function whose only channel operation is the
non-blocking receive, so it returns without waiting.  A responder whose channel
is empty when the loop reaches it is in the FIFO after the call, and so is
every responder whose channel was empty when the call began; when no responder
has a reply, the call changes neither the gateway (FIFO, mailbox, dirty flag)
nor the channels. -/
theorem RecieveEvents_keeps_unanswered (r : TriggerHandler) (w : World) :
    (∀ pre c post, r.responders = pre ++ c :: post →
        (TriggerHandler.RecieveEvents.loop pre r w []).2.1.resp c = none →
        c ∈ (r.RecieveEvents w).1.responders)
      ∧ (∀ c ∈ r.responders, w.resp c = none → c ∈ (r.RecieveEvents w).1.responders)
      ∧ ((∀ c ∈ r.responders, w.resp c = none) → r.RecieveEvents w = (r, w)) := by
  have hpoll : ∀ pre c post, r.responders = pre ++ c :: post →
      (TriggerHandler.RecieveEvents.loop pre r w []).2.1.resp c = none →
      c ∈ (r.RecieveEvents w).1.responders := by
    intro pre c post hsplit hnone
    simp only [TriggerHandler.RecieveEvents, hsplit]
    rw [loop_append]
    have hc := (tryRecv_none_iff _ c).2 hnone
    simp only [TriggerHandler.RecieveEvents.loop, hc]
    exact loop_remaining_mono _ _ _ _ c (by simp)
  refine ⟨hpoll, ?_, ?_⟩
  · intro c hc hnone
    obtain ⟨pre, post, hsplit⟩ := List.append_of_mem hc
    exact hpoll pre c post hsplit (loop_resp_none pre r w [] c hnone)
  · intro hnone
    simp only [TriggerHandler.RecieveEvents, loop_all_none r.responders r w [] hnone]
    simp

theorem RecieveEvents_keeps_unanswered_witness :
    (0 ∈ (busyHandler.RecieveEvents replyWorld).1.responders)
      ∧ busyHandler.RecieveEvents quietWorld = (busyHandler, quietWorld) :=
  ⟨(RecieveEvents_keeps_unanswered busyHandler replyWorld).2.1 0 (by decide) rfl,
   (RecieveEvents_keeps_unanswered busyHandler quietWorld).2.2 (fun _ _ => rfl)⟩

/-- C6: on a FIFO in which no channel occurs twice, after `RecieveEvents` the
FIFO is the previous FIFO filtered to the responders that had no reply (order
kept), no responder that had a reply is left, the mailbox is the previous
mailbox with `routeEvent` applied to every event of every available reply in
FIFO order and list order, and the dirty flag is set when at least one event
was merged (and is as before when none was). -/
theorem RecieveEvents_merge (r : TriggerHandler) (w : World) (hnd : r.responders.Nodup) :
    (r.RecieveEvents w).1.responders = r.responders.filter (fun c => (w.resp c).isNone)
      ∧ (∀ c ∈ r.responders, (w.resp c).isSome = true →
          c ∉ (r.RecieveEvents w).1.responders)
      ∧ (r.RecieveEvents w).1.events
          = ((availableReplies r.responders w).foldl TriggerHandler.routeEvent r).events
      ∧ (availableReplies r.responders w ≠ [] → (r.RecieveEvents w).1.hasEvents = true)
      ∧ (availableReplies r.responders w = [] →
          (r.RecieveEvents w).1.hasEvents = r.hasEvents) := by
  obtain ⟨hrouted, hrem⟩ := loop_nodup r.responders r w w [] hnd (fun _ _ => rfl)
  have hfifo : (r.RecieveEvents w).1.responders
      = r.responders.filter (fun c => (w.resp c).isNone) := by
    simp [TriggerHandler.RecieveEvents, hrem]
  refine ⟨hfifo, ?_, ?_, ?_, ?_⟩
  · intro c _ hsome
    rw [hfifo, List.mem_filter]
    rintro ⟨_, hnone⟩
    cases hc : w.resp c <;> simp [hc] at hsome hnone
  · rw [RecieveEvents_events, hrouted]
  · intro hne
    rw [RecieveEvents_hasEvents, hrouted]
    exact foldl_routeEvent_hasEvents _ r hne
  · intro hnil
    rw [RecieveEvents_hasEvents, hrouted, hnil]
    rfl

theorem RecieveEvents_merge_witness :
    (busyHandler.RecieveEvents replyWorld).1.responders = [0]
      ∧ (busyHandler.RecieveEvents replyWorld).1.events COMPONENT_ERROR_MODAL
          = some (modalEvent "B")
      ∧ (busyHandler.RecieveEvents replyWorld).1.hasEvents = true :=
  have h := RecieveEvents_merge busyHandler replyWorld (by decide)
  ⟨h.1, congrFun h.2.2.1 COMPONENT_ERROR_MODAL, h.2.2.2.1 (by decide)⟩

/-! ## The backend: replies of `handleTrigger` -/

/-- C2, as stated, fails: the trigger of the Set Access Keys view gets no
reply at all. -/
theorem handleTrigger_unhandled_no_reply :
    (loadedServer.handleTrigger loginFailsExternal setAccessKeysTrigger).sent.length ≠ 1 := by
  decide

/-- C2, amended: for a trigger that has a reply path, when every config load
that the handler attempts succeeds and the handler returns (no panic), exactly
one event list is sent on the responder, also when the SSO login fails; for a
trigger without a reply path nothing is sent. -/
theorem handleTrigger_single_reply (ext : External) (s : Server) (t : Trigger) :
    (t.hasReplyPath →
        (∀ call ∈ (s.handleTrigger ext t).calls, call.loadFails ext = false) →
        (∃ b, (s.handleTrigger ext t).result = .returned b) →
        (s.handleTrigger ext t).sent.length = 1)
      ∧ (¬ t.hasReplyPath → (s.handleTrigger ext t).sent = []) := by
  refine ⟨?_, ?_⟩
  · intro hpath hload hret
    obtain ⟨b, hb⟩ := hret
    rcases hpath with hq | ⟨hc, ha⟩ | ⟨hc, ha⟩ | ⟨hc, ha⟩
    · simp [Server.handleTrigger, hq, COMPONENT_QUIT, COMPONENT_HEADER,
        COMPONENT_CHANGE_PROFILE, COMPONENT_REFRESH_SSO]
    · simp only [Server.handleTrigger, hc, if_true, Exec.thenReturn,
        Server.handleHeaderTrigger, ha] at hb ⊢
      cases hexp : s.ssoExpired
      · cases hcfg : s.config with
        | none => simp [hexp, hcfg] at hb
        | some cfg => simp [hexp, hcfg]
      · simp [hexp]
    · have hne : ¬ COMPONENT_CHANGE_PROFILE = COMPONENT_HEADER := by decide
      simp only [Server.handleTrigger, hc, hne, if_true, if_false, Exec.thenReturn,
        Server.handleSwitchProfileView, ha] at hb hload ⊢
      cases hdata : t.Data <;> simp only [hdata] at hb hload ⊢ <;> try (simp at hb)
      rename_i profileData
      cases hcfg : s.config with
      | none => simp [hcfg] at hb
      | some cfg =>
        cases hcfg1 : ext.GetAwsConfigFromProfileConfig profileData.Profile cfg.Region with
        | error err =>
          simp [hcfg, Server.refreshAwsConfig, hcfg1, ExternalCall.loadFails] at hload
        | ok cfg1 => simp [hcfg, Server.refreshAwsConfig, hcfg1]
    · have hne1 : ¬ COMPONENT_REFRESH_SSO = COMPONENT_HEADER := by decide
      have hne2 : ¬ COMPONENT_REFRESH_SSO = COMPONENT_CHANGE_PROFILE := by decide
      simp only [Server.handleTrigger, hc, hne1, hne2, if_true, if_false, Exec.thenReturn,
        Server.handleRefreshSSO, ha] at hb hload ⊢
      cases hdata : t.Data <;> simp only [hdata] at hb hload ⊢ <;> try (simp at hb)
      rename_i refreshData
      cases hlogin : ext.ExecAwsSSOLogin refreshData.Profile with
      | some err => simp [triggerErrorMessage]
      | none =>
        cases hcfg : s.config with
        | none =>
          cases hcfg1 : ext.GetAwsConfigFromProfileConfig refreshData.Profile "" with
          | error err =>
            simp [hlogin, hcfg, Server.refreshAwsConfig, hcfg1, ExternalCall.loadFails] at hload
          | ok cfg1 => simp [Server.refreshAwsConfig, hcfg1]
        | some cfg =>
          cases hcfg1 : ext.GetAwsConfigFromProfileConfig refreshData.Profile cfg.Region with
          | error err =>
            simp [hlogin, hcfg, Server.refreshAwsConfig, hcfg1, ExternalCall.loadFails] at hload
          | ok cfg1 => simp [Server.refreshAwsConfig, hcfg1]
  · intro hpath
    simp only [Trigger.hasReplyPath, not_or, not_and] at hpath
    obtain ⟨hq, hh, hcp, hsso⟩ := hpath
    unfold Server.handleTrigger
    by_cases h1 : t.Component = COMPONENT_HEADER
    · rw [if_pos h1]
      simp [Exec.thenReturn, Server.handleHeaderTrigger, hh h1]
    · by_cases h2 : t.Component = COMPONENT_CHANGE_PROFILE
      · rw [if_neg h1, if_pos h2]
        simp [Exec.thenReturn, Server.handleSwitchProfileView, hcp h2]
      · by_cases h3 : t.Component = COMPONENT_REFRESH_SSO
        · rw [if_neg h1, if_neg h2, if_pos h3]
          simp [Exec.thenReturn, Server.handleRefreshSSO, hsso h3]
        · rw [if_neg h1, if_neg h2, if_neg h3, if_neg hq]

theorem handleTrigger_single_reply_witness :
    (loadedServer.handleTrigger loginFailsExternal reauthTrigger).sent.length = 1
      ∧ (loadedServer.handleTrigger prodExternal changeProfileTrigger).sent.length = 1
      ∧ (loadedServer.handleTrigger loadFailsExternal headerTrigger).sent.length = 1
      ∧ (loadedServer.handleTrigger loginFailsExternal setAccessKeysTrigger).sent = [] :=
  ⟨(handleTrigger_single_reply loginFailsExternal loadedServer reauthTrigger).1
      (Or.inr (Or.inr (Or.inr ⟨rfl, rfl⟩))) (by decide) ⟨false, rfl⟩,
   (handleTrigger_single_reply prodExternal loadedServer changeProfileTrigger).1
      (Or.inr (Or.inr (Or.inl ⟨rfl, rfl⟩))) (by decide) ⟨false, rfl⟩,
   (handleTrigger_single_reply loadFailsExternal loadedServer headerTrigger).1
      (Or.inr (Or.inl ⟨rfl, rfl⟩)) (by decide) ⟨false, rfl⟩,
   (handleTrigger_single_reply loginFailsExternal loadedServer setAccessKeysTrigger).2
      (by unfold Trigger.hasReplyPath; decide)⟩

/-- C7: from a fresh gateway and a server that holds the config `cfg` with
`ssoExpired = false`, the round trip of `{Header, getAuthData, nil}` ends with
`GetEvents` returning `true` and a map whose only entry is the event
`{Header, getAuthData, cfg.AWSConfigData}`; the FIFO is then empty and a second
`GetEvents` returns `(false, nil)`. -/
theorem header_round_trip (ext : External) (cfg : AWSConfig) :
    ∃ r m, roundTrip ext { config := some cfg, ssoExpired := false }
          { Component := COMPONENT_HEADER, Action := ACTION_GET_AUTH_DATA, Data := Data.nil }
        = some (r, true, some m)
      ∧ m = (fun k => if k = COMPONENT_HEADER then
              some { Component := COMPONENT_HEADER, Action := ACTION_GET_AUTH_DATA,
                     Data := Data.awsConfigData cfg.toAWSConfigData }
            else none)
      ∧ r.responders = []
      ∧ r.GetEvents.2 = (false, none) :=
  ⟨_, _, rfl, rfl, rfl, rfl⟩

/-- C8: with `ssoExpired = true` the reply to a Header/getAuthData trigger is
the list of the two events `{Tui, showReauthenticateSSOModal, nil}` and
`{SSOReauthenticationModal, mustReauthenticateSSO, nil}`.  When `RecieveEvents`
merges that reply, and no other reply merged in the same call carries an event
for `Tui` or `SSOReauthenticationModal`, the next `GetEvents` returns a batch
that holds the first event under key `Tui` and the second under key
`SSOReauthenticationModal`. -/
theorem expired_session_pair (ext : External) (s : Server) (t : Trigger)
    (hexp : s.ssoExpired = true) (hc : t.Component = COMPONENT_HEADER)
    (ha : t.Action = ACTION_GET_AUTH_DATA) :
    (s.handleTrigger ext t).sent = [[reauthPromptEvent, mustReauthEvent]]
      ∧ ∀ (r : TriggerHandler) (w : World),
          t.Responder ∈ r.responders →
          w.resp t.Responder = some [reauthPromptEvent, mustReauthEvent] →
          (∀ c ∈ r.responders, c ≠ t.Responder → ∀ events, w.resp c = some events →
            ∀ e ∈ events, e.Component ≠ COMPONENT_TUI ∧ e.Component ≠ COMPONENT_REFRESH_SSO) →
          ∃ m, (r.RecieveEvents w).1.GetEvents.2 = (true, some m)
            ∧ m COMPONENT_TUI = some reauthPromptEvent
            ∧ m COMPONENT_REFRESH_SSO = some mustReauthEvent := by
  refine ⟨?_, ?_⟩
  · simp [Server.handleTrigger, hc, Exec.thenReturn, Server.handleHeaderTrigger, ha, hexp,
      reauthPromptEvent, mustReauthEvent]
  · intro r w hmem hreply hothers
    obtain ⟨before, after, hsplit, hafter⟩ := routed_split r.responders w t.Responder _ hmem hreply
    have hafterTui : ∀ e ∈ after, e.Component ≠ COMPONENT_TUI := by
      intro e he
      obtain ⟨c', hc', hne, events, hev, hin⟩ := hafter e he
      exact (hothers c' hc' hne events hev e hin).1
    have hafterSso : ∀ e ∈ after, e.Component ≠ COMPONENT_REFRESH_SSO := by
      intro e he
      obtain ⟨c', hc', hne, events, hev, hin⟩ := hafter e he
      exact (hothers c' hc' hne events hev e hin).2
    have hflag : (r.RecieveEvents w).1.hasEvents = true := by
      rw [RecieveEvents_hasEvents]
      exact foldl_routeEvent_hasEvents _ r (by simp [hsplit])
    refine ⟨(r.RecieveEvents w).1.events, ?_, ?_, ?_⟩
    · simp [TriggerHandler.GetEvents, hflag]
    · rw [RecieveEvents_events, hsplit, List.foldl_append, foldl_routeEvent_other _ _ _ hafterTui]
      simp [List.foldl_append, TriggerHandler.routeEvent, reauthPromptEvent, mustReauthEvent,
        COMPONENT_TUI, COMPONENT_REFRESH_SSO]
    · rw [RecieveEvents_events, hsplit, List.foldl_append, foldl_routeEvent_other _ _ _ hafterSso]
      simp [List.foldl_append, TriggerHandler.routeEvent, reauthPromptEvent, mustReauthEvent,
        COMPONENT_REFRESH_SSO]

theorem expired_session_pair_witness :
    (expiredServer.handleTrigger loadFailsExternal headerTrigger).sent
        = [[reauthPromptEvent, mustReauthEvent]]
      ∧ ∃ m, (busyHandler.RecieveEvents expiredReplyWorld).1.GetEvents.2 = (true, some m)
          ∧ m COMPONENT_TUI = some reauthPromptEvent
          ∧ m COMPONENT_REFRESH_SSO = some mustReauthEvent :=
  have h := expired_session_pair loadFailsExternal expiredServer headerTrigger rfl rfl rfl
  ⟨h.1, h.2 busyHandler expiredReplyWorld (by decide) rfl (by
    intro c hc hne events hev e he
    have hc1 : c = 1 := by
      simp [busyHandler] at hc
      rcases hc with h0 | h1
      · exact absurd h0 hne
      · exact h1
    subst hc1
    simp [expiredReplyWorld] at hev
    subst hev
    simp at he
    subst he
    decide)⟩

/-- C9: the code at the failing input.  With a config load that fails
inside `refreshAwsConfig`, both handlers send the error pair and then also the
success pair, built from the config the server held before. -/
theorem refresh_failure_sends_success_events :
    (loadedServer.handleTrigger loadFailsExternal changeProfileTrigger).sent
        = [[{ Component := COMPONENT_TUI, Action := ACTION_SHOW_ERROR_MODAL, Data := Data.nil },
            modalEvent "Failed to refresh AWS configuration: boom"],
           [{ Component := COMPONENT_HEADER, Action := ACTION_GET_AUTH_DATA,
              Data := Data.awsConfigData sampleConfig.toAWSConfigData },
            { Component := COMPONENT_CHANGE_PROFILE, Action := ACTION_CHANGE_PROFILE,
              Data := Data.nil }]]
      ∧ (loadedServer.handleTrigger loadFailsExternal reauthTrigger).sent
        = [[{ Component := COMPONENT_TUI, Action := ACTION_SHOW_ERROR_MODAL, Data := Data.nil },
            modalEvent "Failed to refresh AWS configuration: boom"],
           [{ Component := COMPONENT_HEADER, Action := ACTION_GET_AUTH_DATA,
              Data := Data.awsConfigData sampleConfig.toAWSConfigData },
            { Component := COMPONENT_REFRESH_SSO, Action := ACTION_FINISH_REAUTHENTICATE_SSO,
              Data := Data.nil }]] := by
  decide

/-- C10: the code at the failing input.  After a startup load that failed
with a generic error the server holds `config = nil` and `ssoExpired = false`;
a Header/getAuthData trigger, and a changeProfile trigger with a
`ChangeProfileData` payload, then end in a nil dereference of `s.config`, with
nothing sent on the responder. -/
theorem nil_config_dereference :
    NewServer loadFailsExternal "" "" = { config := none, ssoExpired := false }
      ∧ ((NewServer loadFailsExternal "" "").handleTrigger loginFailsExternal headerTrigger).result
          = Outcome.panicked Fault.nilDereference
      ∧ ((NewServer loadFailsExternal "" "").handleTrigger loginFailsExternal headerTrigger).sent
          = []
      ∧ ((NewServer loadFailsExternal "" "").handleTrigger loginFailsExternal
            changeProfileTrigger).result
          = Outcome.panicked Fault.nilDereference := by
  decide

/-! ## The backend: `Server.Run` and the failure paths of the handlers -/

/-- C11: the code at the failing input.  A startup load that fails with the
session-expired error sets `ssoExpired`, and the Header path then replies with
the re-authentication pair; the same error from the load inside
`refreshAwsConfig` is answered with the generic error pair (followed by the
success pair), for `changeProfile` and for `reauthenticateSSO` alike. -/
theorem refresh_session_expired_generic_error :
    NewServer sessionExpiredExternal "" "" = { config := none, ssoExpired := true }
      ∧ ((NewServer sessionExpiredExternal "" "").handleTrigger sessionExpiredExternal
            headerTrigger).sent = [[reauthPromptEvent, mustReauthEvent]]
      ∧ (loadedServer.handleTrigger sessionExpiredExternal changeProfileTrigger).sent
          = [[showErrorModalEvent,
              modalEvent "Failed to refresh AWS configuration: SSO session is expired or invalid"],
             [{ Component := COMPONENT_HEADER, Action := ACTION_GET_AUTH_DATA,
                Data := Data.awsConfigData sampleConfig.toAWSConfigData },
              { Component := COMPONENT_CHANGE_PROFILE, Action := ACTION_CHANGE_PROFILE,
                Data := Data.nil }]]
      ∧ (loadedServer.handleTrigger sessionExpiredExternal reauthTrigger).sent
          = [[showErrorModalEvent,
              modalEvent "Failed to refresh AWS configuration: SSO session is expired or invalid"],
             [{ Component := COMPONENT_HEADER, Action := ACTION_GET_AUTH_DATA,
                Data := Data.awsConfigData sampleConfig.toAWSConfigData },
              { Component := COMPONENT_REFRESH_SSO, Action := ACTION_FINISH_REAUTHENTICATE_SSO,
                Data := Data.nil }]]
      ∧ (loadedServer.handleTrigger sessionExpiredExternal reauthTrigger).server.ssoExpired
          = false := by
  decide

/-- C12, as stated, fails: a changeProfile trigger with a payload of the wrong
type makes the handler panic, and the quit trigger queued behind it is never
handled.  (Likewise, after a failed config refresh the handler waits in its
second send on the responder, with the quit trigger still queued.) -/
theorem Run_crash_before_quit :
    (loadedServer.Run quietWorld [(loginFailsExternal, untypedChangeProfileTrigger),
                                  (loginFailsExternal, quitTrigger)]).handled
        = [(untypedChangeProfileTrigger, [])]
      ∧ (loadedServer.Run quietWorld [(loginFailsExternal, untypedChangeProfileTrigger),
                                      (loginFailsExternal, quitTrigger)]).ending
        = RunEnd.crashed (Fault.panic "Expected ChangeProfileData")
      ∧ (loadedServer.Run quietWorld [(loginFailsExternal, untypedChangeProfileTrigger),
                                      (loginFailsExternal, quitTrigger)]).abandoned
        = [quitTrigger]
      ∧ (loadedServer.Run quietWorld [(loadFailsExternal, changeProfileTrigger),
                                      (loadFailsExternal, quitTrigger)]).ending
        = RunEnd.blocked changeProfileTrigger
            [[{ Component := COMPONENT_HEADER, Action := ACTION_GET_AUTH_DATA,
                Data := Data.awsConfigData sampleConfig.toAWSConfigData },
              { Component := COMPONENT_CHANGE_PROFILE, Action := ACTION_CHANGE_PROFILE,
                Data := Data.nil }]]
      ∧ (loadedServer.Run quietWorld [(loadFailsExternal, changeProfileTrigger),
                                      (loadFailsExternal, quitTrigger)]).abandoned
        = [quitTrigger] := by
  decide

/-- C12, amended: when no trigger before the first quit trigger makes its
handler panic or wait in a send on its responder, and the responder of that
quit trigger is empty when the trigger is reached, `Server.Run` handles the
triggers up to and including the first one whose Component is `Quit`, answers
that one with the single list `[{Quit, end, nil}]`, leaves its loop and handles
none of the triggers queued after it; `handleTrigger` returns `true` exactly
for a trigger whose Component is `Quit`. -/
theorem Run_until_quit (s : Server) (w : World) (pre post : List (External × Trigger))
    (ext : External) (quit : Trigger)
    (hquit : quit.Component = COMPONENT_QUIT)
    (hfirst : ∀ p ∈ pre, p.2.Component ≠ COMPONENT_QUIT)
    (hsafe : ∀ fault, (s.Run w pre).ending ≠ RunEnd.crashed fault)
    (hflow : ∀ trigger pending, (s.Run w pre).ending ≠ RunEnd.blocked trigger pending)
    (hslot : (s.Run w pre).world.resp quit.Responder = none) :
    (s.Run w (pre ++ (ext, quit) :: post)).handled.map Prod.fst = pre.map Prod.snd ++ [quit]
      ∧ (s.Run w (pre ++ (ext, quit) :: post)).handled
          = (s.Run w pre).handled ++ [(quit, [[terminalEvent]])]
      ∧ (s.Run w (pre ++ (ext, quit) :: post)).world.resp quit.Responder
          = some [terminalEvent]
      ∧ (s.Run w (pre ++ (ext, quit) :: post)).abandoned = post.map Prod.snd
      ∧ (s.Run w (pre ++ (ext, quit) :: post)).ending = RunEnd.shutDown
      ∧ (∀ (ext1 : External) (s1 : Server) (t : Trigger),
          (s1.handleTrigger ext1 t).result = Outcome.returned true
            ↔ t.Component = COMPONENT_QUIT) := by
  obtain ⟨hwait, hall⟩ := Run_all_handled pre s w hfirst hsafe hflow
  obtain ⟨h1, h2, h3, _, h5⟩ := Run_append pre ((ext, quit) :: post) s w hwait
  have hres := (handleTrigger_true_iff ext (s.Run w pre).server quit).2 hquit
  have hsent := (handleTrigger_quit ext (s.Run w pre).server quit hquit).1
  have hsend : (s.Run w pre).world.sendUntilFull quit.Responder [[terminalEvent]]
      = ({ (s.Run w pre).world with
            resp := fun c => if c = quit.Responder then some [terminalEvent]
              else (s.Run w pre).world.resp c }, []) := by
    simp [World.sendUntilFull, World.send, hslot]
  have hlast : ((s.Run w pre).server.Run (s.Run w pre).world ((ext, quit) :: post)).handled
        = [(quit, [[terminalEvent]])]
      ∧ ((s.Run w pre).server.Run (s.Run w pre).world ((ext, quit) :: post)).abandoned
        = post.map Prod.snd
      ∧ ((s.Run w pre).server.Run (s.Run w pre).world ((ext, quit) :: post)).ending
        = RunEnd.shutDown
      ∧ ((s.Run w pre).server.Run (s.Run w pre).world ((ext, quit) :: post)).world.resp
          quit.Responder = some [terminalEvent] := by
    simp [Server.Run, hres, hsent, hsend]
  refine ⟨?_, ?_, ?_, ?_, ?_, handleTrigger_true_iff⟩
  · rw [h1, hlast.1]; simp [hall]
  · rw [h1, hlast.1]
  · rw [h5, hlast.2.2.2]
  · rw [h2, hlast.2.1]
  · rw [h3, hlast.2.2.1]

theorem Run_until_quit_witness :
    (loadedServer.Run quietWorld
        [(loginFailsExternal, headerTrigger), (loginFailsExternal, quitTrigger),
         (loginFailsExternal, changeProfileTrigger)]).handled.map Prod.fst
        = [headerTrigger, quitTrigger]
      ∧ (loadedServer.Run quietWorld
          [(loginFailsExternal, headerTrigger), (loginFailsExternal, quitTrigger),
           (loginFailsExternal, changeProfileTrigger)]).world.resp quitTrigger.Responder
        = some [terminalEvent]
      ∧ (loadedServer.Run quietWorld
          [(loginFailsExternal, headerTrigger), (loginFailsExternal, quitTrigger),
           (loginFailsExternal, changeProfileTrigger)]).abandoned
        = [changeProfileTrigger]
      ∧ (loadedServer.Run quietWorld
          [(loginFailsExternal, headerTrigger), (loginFailsExternal, quitTrigger),
           (loginFailsExternal, changeProfileTrigger)]).ending
        = RunEnd.shutDown :=
  have hw : (loadedServer.Run quietWorld [(loginFailsExternal, headerTrigger)]).ending
      = RunEnd.waiting := by decide
  have h := Run_until_quit loadedServer quietWorld [(loginFailsExternal, headerTrigger)]
    [(loginFailsExternal, changeProfileTrigger)] loginFailsExternal quitTrigger rfl
    (by decide)
    (by intro fault h; rw [hw] at h; cases h)
    (by intro trigger pending h; rw [hw] at h; cases h)
    rfl
  ⟨h.1, h.2.2.1, h.2.2.2.1, h.2.2.2.2.1⟩

/-! ## The dispatch loop and the gateway methods of the UI side -/

/-- C13: in one iteration of `RunEventHandler`, when the batch that `GetEvents`
returned has the key `Quit`, the method returns and no `Render` call is made
for that batch, whatever else the batch holds; when the batch has no key
`Quit`, or `GetEvents` returned no batch, the loop goes on with the next
iteration. -/
theorem quit_precedence (a : AppHandle) (w : World) (later : List World) :
    (∀ m, (a.triggerHandler.RecieveEvents w).1.GetEvents.2 = (true, some m) →
        (m COMPONENT_QUIT).isSome = true →
        (AppHandle.RunEventHandler.iteration a w).returned = true
          ∧ (AppHandle.RunEventHandler.iteration a w).rendered = []
          ∧ a.RunEventHandler (w :: later)
              = ((AppHandle.RunEventHandler.iteration a w).handle, [], true))
      ∧ (∀ m, (a.triggerHandler.RecieveEvents w).1.GetEvents.2 = (true, some m) →
        m COMPONENT_QUIT = none →
        (AppHandle.RunEventHandler.iteration a w).returned = false
          ∧ a.RunEventHandler (w :: later)
              = (((AppHandle.RunEventHandler.iteration a w).handle.RunEventHandler later).1,
                 (AppHandle.RunEventHandler.iteration a w).rendered
                   ++ ((AppHandle.RunEventHandler.iteration a w).handle.RunEventHandler later).2.1,
                 ((AppHandle.RunEventHandler.iteration a w).handle.RunEventHandler later).2.2))
      ∧ ((a.triggerHandler.RecieveEvents w).1.GetEvents.2.1 = false →
        (AppHandle.RunEventHandler.iteration a w).returned = false
          ∧ (AppHandle.RunEventHandler.iteration a w).rendered = []
          ∧ a.RunEventHandler (w :: later)
              = (AppHandle.RunEventHandler.iteration a w).handle.RunEventHandler later) := by
  obtain ⟨hnone, hsome⟩ := iteration_cases a w
  refine ⟨?_, ?_, ?_⟩
  · intro m hm hq
    obtain ⟨h1, h2⟩ := (hsome m hm).1 hq
    exact ⟨h1, h2, by simp [AppHandle.RunEventHandler, h1, h2]⟩
  · intro m hm hq
    obtain ⟨h1, _⟩ := (hsome m hm).2 hq
    exact ⟨h1, by simp [AppHandle.RunEventHandler, h1]⟩
  · intro h
    obtain ⟨h1, h2⟩ := hnone h
    exact ⟨h1, h2, by simp [AppHandle.RunEventHandler, h1, h2]⟩

theorem quit_precedence_witness :
    ((AppHandle.RunEventHandler.iteration quittingHandle quietWorld).returned = true
        ∧ (AppHandle.RunEventHandler.iteration quittingHandle quietWorld).rendered = []
        ∧ quittingHandle.RunEventHandler [quietWorld, replyWorld]
            = ((AppHandle.RunEventHandler.iteration quittingHandle quietWorld).handle, [], true))
      ∧ (AppHandle.RunEventHandler.iteration sampleHandle quietWorld).returned = false :=
  ⟨(quit_precedence quittingHandle quietWorld [replyWorld]).1
      quittingHandle.triggerHandler.events rfl rfl,
   ((quit_precedence sampleHandle quietWorld []).2.1
      sampleHandle.triggerHandler.events rfl rfl).1⟩

/-- C14: for a batch without the key `Quit`, returned by `GetEvents` on a
reachable gateway, and a subscription map (one entry per name), the iteration
calls `Render` once for every subscribed name that is a key of the batch and
for no other name; every call goes to the component subscribed under that
name, with the batch entry of that name, whose Component is that name; and an
event of the batch whose key has no subscription is passed to no `Render`
call. -/
theorem dispatch_to_subscribers (a : AppHandle) (w : World) (m : EventMap)
    (hreach : Reachable a.triggerHandler)
    (hkeys : (a.subscriptions.map Prod.fst).Nodup)
    (hbatch : (a.triggerHandler.RecieveEvents w).1.GetEvents.2 = (true, some m))
    (hnoquit : m COMPONENT_QUIT = none) :
    (∀ c, ((AppHandle.RunEventHandler.iteration a w).rendered.map RenderCall.component).count c
        = if c ∈ a.subscriptions.map Prod.fst ∧ (m c).isSome = true then 1 else 0)
      ∧ (∀ call ∈ (AppHandle.RunEventHandler.iteration a w).rendered,
          (call.component, call.sub) ∈ a.subscriptions
            ∧ m call.component = some call.event
            ∧ call.event.Component = call.component)
      ∧ (∀ c e, m c = some e → c ∉ a.subscriptions.map Prod.fst →
          ∀ call ∈ (AppHandle.RunEventHandler.iteration a w).rendered, call.event ≠ e) := by
  have hrendered := ((iteration_cases a w).2 m hbatch).2 hnoquit
  have hkeyed : Keyed m := by
    rw [GetEvents_batch _ m hbatch]
    exact reachable_keyed _ (Reachable.call a.triggerHandler (GatewayCall.RecieveEvents w) hreach)
  have hcalls : ∀ call ∈ (AppHandle.RunEventHandler.iteration a w).rendered,
      (call.component, call.sub) ∈ a.subscriptions
        ∧ m call.component = some call.event
        ∧ call.event.Component = call.component := by
    intro call hcall
    rw [hrendered.2, mem_update] at hcall
    exact ⟨hcall.1, hcall.2, hkeyed _ _ hcall.2⟩
  refine ⟨?_, hcalls, ?_⟩
  · intro c
    rw [hrendered.2, update_components]
    by_cases hc : c ∈ a.subscriptions.map Prod.fst ∧ (m c).isSome = true
    · have hp : (fun c => (m c).isSome) c = true := hc.2
      rw [if_pos hc, @List.count_filter String _ _ (fun c => (m c).isSome) c
        (a.subscriptions.map Prod.fst) hp]
      exact List.count_eq_one_of_mem hkeys hc.1
    · rw [if_neg hc]
      apply List.count_eq_zero_of_not_mem
      intro hmem
      rw [List.mem_filter] at hmem
      exact hc hmem
  · intro c e hce hnosub call hcall hev
    obtain ⟨hsub, hm, hcomp⟩ := hcalls call hcall
    have h1 : e.Component = c := hkeyed c e hce
    have h2 : c = call.component := by rw [← h1, ← hev, hcomp]
    apply hnosub
    rw [h2]
    exact List.mem_map.2 ⟨(call.component, call.sub), hsub, rfl⟩

theorem dispatch_to_subscribers_witness :
    ((AppHandle.RunEventHandler.iteration sampleHandle quietWorld).rendered.map
        RenderCall.component).count COMPONENT_TUI = 1
      ∧ ((AppHandle.RunEventHandler.iteration sampleHandle quietWorld).rendered.map
        RenderCall.component).count COMPONENT_ERROR_MODAL = 0
      ∧ (∀ call ∈ (AppHandle.RunEventHandler.iteration sampleHandle quietWorld).rendered,
          call.event ≠ modalEvent "A") :=
  have h := dispatch_to_subscribers sampleHandle quietWorld sampleHandle.triggerHandler.events
    (Reachable.call _ (GatewayCall.PassEvent (modalEvent "A"))
      (Reachable.call _ (GatewayCall.PassEvent closeModalEvent) Reachable.init))
    (by decide) rfl rfl
  ⟨(h.1 COMPONENT_TUI).trans (by decide), (h.1 COMPONENT_ERROR_MODAL).trans (by decide),
   h.2.2 COMPONENT_ERROR_MODAL (modalEvent "A") rfl (by decide)⟩

/-- C15: `PassEvent(e)` puts `e` into the mailbox slot of `e.Component` and sets
the dirty flag; the FIFO of pending responders and every other mailbox slot
stay as they were; the method has no channel operation (no trigger is sent on
the request queue); `AppHandle.PassEvent` is that call on the gateway of the
handle. -/
theorem PassEvent_frame (r : TriggerHandler) (e : Event) :
    (r.PassEvent e).events e.Component = some e
      ∧ (r.PassEvent e).hasEvents = true
      ∧ (r.PassEvent e).responders = r.responders
      ∧ (∀ k, k ≠ e.Component → (r.PassEvent e).events k = r.events k)
      ∧ (∀ step ∈ TriggerHandler.PassEvent.steps, step.isChannelOp = false)
      ∧ (∀ a : AppHandle, (a.PassEvent e).triggerHandler = a.triggerHandler.PassEvent e
          ∧ (a.PassEvent e).subscriptions = a.subscriptions) := by
  refine ⟨?_, rfl, rfl, ?_, ?_, fun a => ⟨rfl, rfl⟩⟩
  · simp [TriggerHandler.PassEvent, TriggerHandler.routeEvent]
  · intro k hk
    simp [TriggerHandler.PassEvent, TriggerHandler.routeEvent, hk]
  · intro step hstep
    simp only [TriggerHandler.PassEvent.steps, TriggerHandler.routeEvent.steps, List.mem_cons,
      List.mem_singleton, List.not_mem_nil, or_false] at hstep
    rcases hstep with h | h | h | h <;> subst h <;> rfl

theorem PassEvent_frame_witness :
    (busyHandler.PassEvent closeModalEvent).events COMPONENT_TUI = some closeModalEvent
      ∧ (busyHandler.PassEvent closeModalEvent).events COMPONENT_ERROR_MODAL
          = busyHandler.events COMPONENT_ERROR_MODAL
      ∧ (busyHandler.PassEvent closeModalEvent).responders = [0, 1] :=
  have h := PassEvent_frame busyHandler closeModalEvent
  ⟨h.1, h.2.2.2.1 COMPONENT_ERROR_MODAL (by decide), h.2.2.1⟩

/-- C16: when the request queue has room, `MakeTrigger(e)` appends one trigger
to the request queue, whose embedded Event is `e`, and appends one responder
at the end of the FIFO, which is the channel that the trigger carries, newly
made and empty; mailbox and dirty flag stay as they were, and `SendTrigger`
is `MakeTrigger` on the event built from its arguments.  When the queue is
full the send waits. -/
theorem MakeTrigger_sends_one (r : TriggerHandler) (e : Event) (w : World) :
    (w.tx.queue.length < w.tx.cap →
        ∃ r1 w1 t, r.MakeTrigger e w = some (r1, w1)
          ∧ w1.tx.queue = w.tx.queue ++ [t]
          ∧ t.toEvent = e
          ∧ r1.responders = r.responders ++ [t.Responder]
          ∧ w1.resp t.Responder = none
          ∧ r1.events = r.events
          ∧ r1.hasEvents = r.hasEvents
          ∧ (∀ a : AppHandle, a.triggerHandler = r →
              a.SendTrigger e.Component e.Action e.Data w
                = some ({ a with triggerHandler := r1 }, w1)))
      ∧ (¬ w.tx.queue.length < w.tx.cap → r.MakeTrigger e w = none) := by
  refine ⟨?_, ?_⟩
  · intro hroom
    have hmake : r.MakeTrigger e w
        = some ({ r with responders := r.responders ++ [w.nextChan + 1] },
            { tx := { w.tx with queue := w.tx.queue
                        ++ [{ toEvent := e, Responder := w.nextChan + 1 }] },
              resp := fun c => if c = w.nextChan + 1 then none
                else if c = w.nextChan then none else w.resp c,
              nextChan := w.nextChan + 1 + 1 }) := by
      simp [TriggerHandler.MakeTrigger, NewTrigger, World.makeChan, World.sendTx, hroom]
    refine ⟨_, _, { toEvent := e, Responder := w.nextChan + 1 }, hmake, rfl, rfl, rfl, ?_, rfl,
      rfl, ?_⟩
    · simp
    · intro a ha
      subst ha
      simp only [AppHandle.SendTrigger]
      rw [show ({ Component := e.Component, Action := e.Action, Data := e.Data } : Event) = e
        from rfl, hmake]
  · intro hfull
    simp [TriggerHandler.MakeTrigger, NewTrigger, World.makeChan, World.sendTx, hfull]

theorem MakeTrigger_sends_one_witness :
    (∃ r1 w1 t, busyHandler.MakeTrigger closeModalEvent quietWorld = some (r1, w1)
        ∧ w1.tx.queue = quietWorld.tx.queue ++ [t]
        ∧ t.toEvent = closeModalEvent
        ∧ r1.responders = busyHandler.responders ++ [t.Responder]
        ∧ w1.resp t.Responder = none
        ∧ r1.events = busyHandler.events
        ∧ r1.hasEvents = busyHandler.hasEvents
        ∧ (∀ a : AppHandle, a.triggerHandler = busyHandler →
            a.SendTrigger closeModalEvent.Component closeModalEvent.Action closeModalEvent.Data
                quietWorld
              = some ({ a with triggerHandler := r1 }, w1)))
      ∧ busyHandler.MakeTrigger closeModalEvent fullWorld = none :=
  ⟨(MakeTrigger_sends_one busyHandler closeModalEvent quietWorld).1 (by decide),
   (MakeTrigger_sends_one busyHandler closeModalEvent fullWorld).2 (by decide)⟩

/-! ## The backend: payload mismatch and SSO login failure -/

/-- C17: a ChangeProfileView/changeProfile trigger whose Data is not a
`ChangeProfileData`, and a SSOReauthenticationModal/reauthenticateSSO trigger
whose Data is not a `ReauthenticateSSOData`, make the handler panic; up to the
panic it has called no external operation, sent nothing on the responder and
left the server state as it was. -/
theorem payload_mismatch_panics (ext : External) (s : Server) (t : Trigger) :
    (t.Component = COMPONENT_CHANGE_PROFILE → t.Action = ACTION_CHANGE_PROFILE →
        (∀ d, t.Data ≠ Data.changeProfileData d) →
        (s.handleTrigger ext t).result
            = Outcome.panicked (Fault.panic "Expected ChangeProfileData")
          ∧ (s.handleTrigger ext t).calls = []
          ∧ (s.handleTrigger ext t).sent = []
          ∧ (s.handleTrigger ext t).server = s)
      ∧ (t.Component = COMPONENT_REFRESH_SSO → t.Action = ACTION_REAUTHENTICATE_SSO →
        (∀ d, t.Data ≠ Data.reauthenticateSSOData d) →
        (s.handleTrigger ext t).result
            = Outcome.panicked (Fault.panic "Expected ReauthenticateSSOData")
          ∧ (s.handleTrigger ext t).calls = []
          ∧ (s.handleTrigger ext t).sent = []
          ∧ (s.handleTrigger ext t).server = s) := by
  refine ⟨?_, ?_⟩
  · intro hc ha hd
    have h1 : ¬ t.Component = COMPONENT_HEADER := by rw [hc]; decide
    unfold Server.handleTrigger
    rw [if_neg h1, if_pos hc]
    cases hdata : t.Data with
    | changeProfileData d => exact absurd hdata (hd d)
    | _ => simp [Exec.thenReturn, Server.handleSwitchProfileView, ha, hdata]
  · intro hc ha hd
    have h1 : ¬ t.Component = COMPONENT_HEADER := by rw [hc]; decide
    have h2 : ¬ t.Component = COMPONENT_CHANGE_PROFILE := by rw [hc]; decide
    unfold Server.handleTrigger
    rw [if_neg h1, if_neg h2, if_pos hc]
    cases hdata : t.Data with
    | reauthenticateSSOData d => exact absurd hdata (hd d)
    | _ => simp [Exec.thenReturn, Server.handleRefreshSSO, ha, hdata]

theorem payload_mismatch_panics_witness :
    ((loadedServer.handleTrigger loginFailsExternal untypedChangeProfileTrigger).result
          = Outcome.panicked (Fault.panic "Expected ChangeProfileData")
        ∧ (loadedServer.handleTrigger loginFailsExternal untypedChangeProfileTrigger).calls = []
        ∧ (loadedServer.handleTrigger loginFailsExternal untypedChangeProfileTrigger).sent = []
        ∧ (loadedServer.handleTrigger loginFailsExternal untypedChangeProfileTrigger).server
            = loadedServer)
      ∧ ((loadedServer.handleTrigger loginFailsExternal untypedReauthTrigger).result
          = Outcome.panicked (Fault.panic "Expected ReauthenticateSSOData")
        ∧ (loadedServer.handleTrigger loginFailsExternal untypedReauthTrigger).calls = []
        ∧ (loadedServer.handleTrigger loginFailsExternal untypedReauthTrigger).sent = []
        ∧ (loadedServer.handleTrigger loginFailsExternal untypedReauthTrigger).server
            = loadedServer) :=
  ⟨(payload_mismatch_panics loginFailsExternal loadedServer untypedChangeProfileTrigger).1
      rfl rfl (fun d h => by cases h),
   (payload_mismatch_panics loginFailsExternal loadedServer untypedReauthTrigger).2
      rfl rfl (fun d h => by cases h)⟩

/-- C18: when `ExecAwsSSOLogin` fails with `err` while `handleRefreshSSO` handles
a reauthenticateSSO trigger, one list is sent on the responder, the error pair
with the message "Failed to reauthenticate SSO session: " followed by `err`;
the login is the only external call (no config load is attempted), and the
server keeps its config and its `ssoExpired` flag. -/
theorem login_failure_reply (ext : External) (s : Server) (t : Trigger)
    (refreshData : ReauthenticateSSOData) (err : String)
    (hc : t.Component = COMPONENT_REFRESH_SSO) (ha : t.Action = ACTION_REAUTHENTICATE_SSO)
    (hd : t.Data = Data.reauthenticateSSOData refreshData)
    (hlogin : ext.ExecAwsSSOLogin refreshData.Profile = some err) :
    (s.handleTrigger ext t).sent
        = [[{ Component := COMPONENT_TUI, Action := ACTION_SHOW_ERROR_MODAL, Data := Data.nil },
            { Component := COMPONENT_ERROR_MODAL, Action := ACTION_SHOW_ERROR_MESSAGE,
              Data := Data.errorData
                { Message := "Failed to reauthenticate SSO session: " ++ err } }]]
      ∧ (s.handleTrigger ext t).calls = [ExternalCall.ExecAwsSSOLogin refreshData.Profile]
      ∧ (s.handleTrigger ext t).server = s
      ∧ (s.handleTrigger ext t).result = Outcome.returned false := by
  have h1 : ¬ t.Component = COMPONENT_HEADER := by rw [hc]; decide
  have h2 : ¬ t.Component = COMPONENT_CHANGE_PROFILE := by rw [hc]; decide
  unfold Server.handleTrigger
  rw [if_neg h1, if_neg h2, if_pos hc]
  simp [Exec.thenReturn, Server.handleRefreshSSO, ha, hd, hlogin, triggerErrorMessage]

theorem login_failure_reply_witness :
    (loadedServer.handleTrigger loginFailsExternal reauthTrigger).sent
        = [[showErrorModalEvent,
            modalEvent "Failed to reauthenticate SSO session: exit status 255"]]
      ∧ (loadedServer.handleTrigger loginFailsExternal reauthTrigger).calls
        = [ExternalCall.ExecAwsSSOLogin "prod"]
      ∧ (loadedServer.handleTrigger loginFailsExternal reauthTrigger).server = loadedServer
      ∧ (loadedServer.handleTrigger loginFailsExternal reauthTrigger).result
        = Outcome.returned false :=
  login_failure_reply loginFailsExternal loadedServer reauthTrigger { Profile := "prod" }
    "exit status 255" rfl rfl rfl rfl

/-! ## Profile enumeration -/

/-- C19: `GetAvailableProfiles` is a total function returning a list.  Its
result holds no name twice and holds exactly the names that
`getProfilesFromFile` extracts from the credentials file and from the config
file; from a file that is read to its end these are the non-empty texts between
"[profile " and "]" on a white-space-trimmed line; a file that cannot be read
contributes no name, so with both files unreadable the result is the empty
list. -/
theorem GetAvailableProfiles_names (os : Os) :
    (GetAvailableProfiles os).Nodup
      ∧ (∀ name, name ∈ GetAvailableProfiles os
          ↔ name ∈ extractedProfiles os (credentialFileOf os)
            ∨ name ∈ extractedProfiles os (configFileOf os))
      ∧ (∀ filePath lines, os.scanFile filePath = ScanResult.scanned lines none →
          ∀ name, name ∈ extractedProfiles os filePath
            ↔ ∃ text ∈ lines, namesProfile text name)
      ∧ (∀ filePath, (∀ lines, os.scanFile filePath ≠ ScanResult.scanned lines none) →
          extractedProfiles os filePath = [])
      ∧ ((∀ lines, os.scanFile (credentialFileOf os) ≠ ScanResult.scanned lines none) →
          (∀ lines, os.scanFile (configFileOf os) ≠ ScanResult.scanned lines none) →
          GetAvailableProfiles os = []) := by
  have hunread : ∀ filePath,
      (∀ lines, os.scanFile filePath ≠ ScanResult.scanned lines none) →
      extractedProfiles os filePath = [] := by
    intro filePath hbad
    unfold extractedProfiles getProfilesFromFile
    cases hscan : os.scanFile filePath with
    | openFailed err => rfl
    | scanned lines err =>
      cases err with
      | none => exact absurd hscan (hbad lines)
      | some e => rfl
  obtain ⟨hnd1, hmem1⟩ := addAll_spec (extractedProfiles os (credentialFileOf os)) []
    List.nodup_nil
  obtain ⟨hnd2, hmem2⟩ := addAll_spec (extractedProfiles os (configFileOf os)) _ hnd1
  refine ⟨?_, ?_, ?_, hunread, ?_⟩
  · rw [GetAvailableProfiles_eq]; exact hnd2
  · intro name
    rw [GetAvailableProfiles_eq, hmem2, hmem1]
    simp
  · intro filePath lines hscan name
    unfold extractedProfiles getProfilesFromFile
    simp only [hscan]
    rw [mem_foldl_scanLine]
    simp
  · intro h1 h2
    rw [GetAvailableProfiles_eq, hunread _ h1, hunread _ h2]
    rfl

theorem GetAvailableProfiles_names_witness :
    ("prod" ∈ extractedProfiles sampleOs "/home/u/.aws/config"
        ↔ ∃ text ∈ ["[default]", "region = eu-west-1", "  [profile dev]  ", "[profile ]",
                    "[profile prod]", "sso_role_name = Admin", "[profile dev]"],
            namesProfile text "prod")
      ∧ extractedProfiles sampleOs "/home/u/.aws/credentials" = []
      ∧ GetAvailableProfiles unreadableOs = [] :=
  ⟨(GetAvailableProfiles_names sampleOs).2.2.1 "/home/u/.aws/config" _ rfl "prod",
   (GetAvailableProfiles_names sampleOs).2.2.2.1 "/home/u/.aws/credentials"
      (fun lines h => by cases h),
   (GetAvailableProfiles_names unreadableOs).2.2.2.2
      (fun lines h => by cases h) (fun lines h => by cases h)⟩

/-! ## The lock discipline of the gateway -/

/-- C20: the code at the failing input.  `MakeTrigger` reads and writes
`r.responders` and `RecieveEvents` reads and writes it, in both without
`eventLock` held, so the FIFO is not guarded by the lock.  The mailbox map and
the dirty flag are read and written only with `eventLock` held, in every
method, and no method has a channel operation while it holds `eventLock`. -/
theorem responders_not_guarded (r : TriggerHandler) (w : World) :
    guardedByLock Step.isFifo TriggerHandler.MakeTrigger.steps = false
      ∧ guardedByLock Step.isFifo (TriggerHandler.RecieveEvents.steps r w) = false
      ∧ (guardedByLock Step.isMailbox TriggerHandler.MakeTrigger.steps = true
          ∧ guardedByLock Step.isMailbox TriggerHandler.PassEvent.steps = true
          ∧ guardedByLock Step.isMailbox (TriggerHandler.RecieveEvents.steps r w) = true
          ∧ guardedByLock Step.isMailbox (TriggerHandler.GetEvents.steps r) = true)
      ∧ (channelOpsOutsideLock TriggerHandler.MakeTrigger.steps = true
          ∧ channelOpsOutsideLock TriggerHandler.PassEvent.steps = true
          ∧ channelOpsOutsideLock (TriggerHandler.RecieveEvents.steps r w) = true
          ∧ channelOpsOutsideLock (TriggerHandler.GetEvents.steps r) = true) := by
  refine ⟨by decide, ?_, ⟨by decide, by decide, ?_, ?_⟩, ⟨by decide, by decide, ?_, ?_⟩⟩
  · show lockCheck _ false (Step.readResponders :: Step.readResponders
      :: (TriggerHandler.RecieveEvents.loopSteps r.responders w ++ [Step.writeResponders]))
      = false
    simp [lockCheck, Step.isFifo]
  · exact lockCheck_RecieveEvents _ (fun _ => rfl) rfl rfl rfl rfl r w
  · unfold TriggerHandler.GetEvents.steps
    cases r.hasEvents <;> decide
  · exact lockCheck_RecieveEvents _ (fun _ => rfl) rfl rfl rfl rfl r w
  · unfold TriggerHandler.GetEvents.steps
    cases r.hasEvents <;> decide

/-! ## Lemmas on the pending responder of an unanswered trigger -/

/-- A responder of the FIFO whose channel is empty is kept by `RecieveEvents`. -/
theorem RecieveEvents_keeps (r : TriggerHandler) (w : World) (c : ChanId)
    (hc : c ∈ r.responders) (hnone : w.resp c = none) :
    c ∈ (r.RecieveEvents w).1.responders := by
  obtain ⟨pre, post, hsplit⟩ := List.append_of_mem hc
  simp only [TriggerHandler.RecieveEvents, hsplit]
  rw [loop_append]
  have hpoll := (tryRecv_none_iff _ c).2 (loop_resp_none pre r w [] c hnone)
  simp only [TriggerHandler.RecieveEvents.loop, hpoll]
  exact loop_remaining_mono _ _ _ _ c (by simp)

theorem RecieveEvents_keeps_always (ws : List World) (r : TriggerHandler) (c : ChanId)
    (hc : c ∈ r.responders) (hnone : ∀ w ∈ ws, w.resp c = none) :
    c ∈ (runCalls r (ws.map GatewayCall.RecieveEvents)).responders := by
  induction ws generalizing r with
  | nil => exact hc
  | cons w ws ih =>
    simp only [List.map_cons, runCalls, GatewayCall.apply]
    exact ih _ (RecieveEvents_keeps r w c hc (hnone w (List.mem_cons_self _ _)))
      (fun w1 hw1 => hnone w1 (List.mem_cons_of_mem _ hw1))

theorem RecieveEvents_resp_none (r : TriggerHandler) (w : World) (c : ChanId)
    (hnone : w.resp c = none) : (r.RecieveEvents w).2.resp c = none := by
  simp only [TriggerHandler.RecieveEvents]
  exact loop_resp_none r.responders r w [] c hnone

theorem recieveTimes_keeps (n : Nat) (r : TriggerHandler) (w : World) (c : ChanId)
    (hc : c ∈ r.responders) (hnone : w.resp c = none) :
    c ∈ (recieveTimes n (r, w)).1.responders := by
  induction n generalizing r w with
  | zero => exact hc
  | succ n ih =>
    simp only [recieveTimes]
    exact ih _ _ (RecieveEvents_keeps r w c hc hnone) (RecieveEvents_resp_none r w c hnone)

/-! ## The backend: profile switch and unhandled triggers -/

/-- C21: when the server holds the config `cfg` and the load for profile `p`
with the Region of `cfg` succeeds with `cfg1`, `handleSwitchProfileView` on a
changeProfile trigger carrying `ChangeProfileData{Profile: p}` makes that one
load, replaces the config of the server by `cfg1`, leaves `ssoExpired` as it
was, and sends one reply, the list of `{Header, getAuthData, cfg1.AWSConfigData}`
and `{ChangeProfileView, changeProfile, nil}`. -/
theorem switch_profile_reply (ext : External) (s : Server) (t : Trigger)
    (profileData : ChangeProfileData) (cfg cfg1 : AWSConfig)
    (hc : t.Component = COMPONENT_CHANGE_PROFILE) (ha : t.Action = ACTION_CHANGE_PROFILE)
    (hd : t.Data = Data.changeProfileData profileData)
    (hs : s.config = some cfg)
    (hload : ext.GetAwsConfigFromProfileConfig profileData.Profile cfg.Region = .ok cfg1) :
    (s.handleTrigger ext t).calls
        = [ExternalCall.GetAwsConfigFromProfileConfig profileData.Profile cfg.Region]
      ∧ (s.handleTrigger ext t).server = { config := some cfg1, ssoExpired := s.ssoExpired }
      ∧ (s.handleTrigger ext t).sent
        = [[{ Component := COMPONENT_HEADER, Action := ACTION_GET_AUTH_DATA,
              Data := Data.awsConfigData cfg1.toAWSConfigData },
            { Component := COMPONENT_CHANGE_PROFILE, Action := ACTION_CHANGE_PROFILE,
              Data := Data.nil }]]
      ∧ (s.handleTrigger ext t).result = Outcome.returned false
      ∧ (s.handleSwitchProfileView ext t).sent = (s.handleTrigger ext t).sent := by
  have h1 : ¬ t.Component = COMPONENT_HEADER := by rw [hc]; decide
  unfold Server.handleTrigger
  rw [if_neg h1, if_pos hc]
  simp [Exec.thenReturn, Server.handleSwitchProfileView, ha, hd, hs, Server.refreshAwsConfig,
    hload]

theorem switch_profile_reply_witness :
    (loadedServer.handleTrigger prodExternal changeProfileTrigger).calls
        = [ExternalCall.GetAwsConfigFromProfileConfig "prod" "eu-west-1"]
      ∧ (loadedServer.handleTrigger prodExternal changeProfileTrigger).server
        = { config := some prodConfig, ssoExpired := false }
      ∧ (loadedServer.handleTrigger prodExternal changeProfileTrigger).sent
        = [[{ Component := COMPONENT_HEADER, Action := ACTION_GET_AUTH_DATA,
              Data := Data.awsConfigData prodConfig.toAWSConfigData },
            { Component := COMPONENT_CHANGE_PROFILE, Action := ACTION_CHANGE_PROFILE,
              Data := Data.nil }]]
      ∧ (loadedServer.handleTrigger prodExternal changeProfileTrigger).result
        = Outcome.returned false :=
  have h := switch_profile_reply prodExternal loadedServer changeProfileTrigger
    { Profile := "prod" } sampleConfig prodConfig rfl rfl rfl rfl rfl
  ⟨h.1, h.2.1, h.2.2.1, h.2.2.2.1⟩

/-- C25: for a trigger whose Component is none of Header, ChangeProfileView,
SSOReauthenticationModal and Quit, `handleTrigger` sends nothing on the
responder, calls no external operation, returns `false` and leaves the server
as it was; the channel of the responder is as before the trigger was handled,
and a responder of the FIFO whose channel stays empty is still in the FIFO
after any number of `RecieveEvents` calls.  In particular, when such a trigger
is raised on the fresh gateway and the server has handled it, its responder is
in the FIFO after every number of `RecieveEvents` calls. -/
theorem unhandled_trigger_pending (ext : External) (s : Server) (t : Trigger)
    (h1 : t.Component ≠ COMPONENT_HEADER) (h2 : t.Component ≠ COMPONENT_CHANGE_PROFILE)
    (h3 : t.Component ≠ COMPONENT_REFRESH_SSO) (h4 : t.Component ≠ COMPONENT_QUIT) :
    (s.handleTrigger ext t).sent = []
      ∧ (s.handleTrigger ext t).calls = []
      ∧ (s.handleTrigger ext t).result = Outcome.returned false
      ∧ (s.handleTrigger ext t).server = s
      ∧ (∀ w : World, w.sendAll t.Responder (s.handleTrigger ext t).sent = some w)
      ∧ (∀ (r : TriggerHandler) (ws : List World), t.Responder ∈ r.responders →
          (∀ w ∈ ws, w.resp t.Responder = none) →
          t.Responder ∈ (runCalls r (ws.map GatewayCall.RecieveEvents)).responders)
      ∧ (∃ r1 w1 c w2 run, NewTriggerHandler.MakeTrigger t.toEvent initWorld = some (r1, w1)
          ∧ w1.tx.queue = [{ toEvent := t.toEvent, Responder := c }]
          ∧ r1.responders = [c]
          ∧ s.serveOne ext w1 = some (run, w2)
          ∧ ∀ n, c ∈ (recieveTimes n (r1, w2)).1.responders) := by
  have hany : ∀ t1 : Trigger, t1.Component = t.Component → s.handleTrigger ext t1
      = { server := s, sent := [], calls := [], result := Outcome.returned false } := by
    intro t1 ht1
    unfold Server.handleTrigger
    rw [ht1, if_neg h1, if_neg h2, if_neg h3, if_neg h4]
  have hrun := hany t rfl
  refine ⟨by rw [hrun], by rw [hrun], by rw [hrun], by rw [hrun], fun _ => by rw [hrun]; rfl,
    fun r ws hc hnone => RecieveEvents_keeps_always ws r t.Responder hc hnone, ?_⟩
  refine ⟨{ responders := [1], events := fun _ => none, hasEvents := false },
    { tx := { cap := 100, queue := [{ toEvent := t.toEvent, Responder := 1 }] },
      resp := fun c => if c = 1 then none else if c = 0 then none else none,
      nextChan := 2 },
    1,
    { tx := { cap := 100, queue := [] },
      resp := fun c => if c = 1 then none else if c = 0 then none else none,
      nextChan := 2 },
    { server := s, sent := [], calls := [], result := Outcome.returned false },
    rfl, rfl, rfl, ?_, ?_⟩
  · simp only [Server.serveOne, World.recvTx]
    rw [hany { toEvent := t.toEvent, Responder := 1 } rfl]
    rfl
  · intro n
    exact recieveTimes_keeps n _ _ 1 (List.mem_singleton.2 rfl) rfl

theorem unhandled_trigger_pending_witness :
    (loadedServer.handleTrigger prodExternal setAccessKeysTrigger).sent = []
      ∧ (loadedServer.handleTrigger prodExternal setAccessKeysTrigger).result
        = Outcome.returned false
      ∧ (loadedServer.handleTrigger prodExternal setAccessKeysTrigger).server = loadedServer
      ∧ 0 ∈ (runCalls busyHandler
              [GatewayCall.RecieveEvents replyWorld, GatewayCall.RecieveEvents quietWorld,
               GatewayCall.RecieveEvents replyWorld]).responders :=
  have h := unhandled_trigger_pending prodExternal loadedServer setAccessKeysTrigger
    (by decide) (by decide) (by decide) (by decide)
  ⟨h.1, h.2.2.1, h.2.2.2.1,
   h.2.2.2.2.2.1 busyHandler [replyWorld, quietWorld, replyWorld] (by decide)
     (by
       intro w hw
       simp only [List.mem_cons, List.mem_singleton, List.not_mem_nil, or_false] at hw
       rcases hw with h | h | h <;> subst h <;> rfl)⟩

/-! ## The dirty flag and the mailbox -/

theorem foldl_routeEvent_flag (es : List Event) (r : TriggerHandler)
    (hinv : r.hasEvents = true ↔ ∃ k, (r.events k).isSome = true) :
    (es.foldl TriggerHandler.routeEvent r).hasEvents = true
      ↔ ∃ k, ((es.foldl TriggerHandler.routeEvent r).events k).isSome = true := by
  by_cases hne : es = []
  · subst hne; exact hinv
  · constructor
    · intro _
      exact ⟨(es.getLast hne).Component, by rw [foldl_routeEvent_last es r hne]; rfl⟩
    · intro _
      exact foldl_routeEvent_hasEvents es r hne

/-- In a reachable gateway the dirty flag is set exactly when the mailbox holds
an entry. -/
theorem reachable_flag (r : TriggerHandler) (hr : Reachable r) :
    r.hasEvents = true ↔ ∃ k, (r.events k).isSome = true := by
  induction hr with
  | init => simp [NewTriggerHandler]
  | call r c _ ih =>
    rw [apply_events, apply_hasEvents]
    exact foldl_routeEvent_flag _ r ih
  | getEvents r _ ih =>
    unfold TriggerHandler.GetEvents
    cases hf : r.hasEvents with
    | true => simp
    | false =>
      simp only [Bool.false_eq_true, if_false]
      exact ih

/-- C22: in every gateway state reachable from `NewTriggerHandler` by
`MakeTrigger`, `PassEvent`, `RecieveEvents` and `GetEvents` calls, `hasEvents`
is true exactly when the mailbox map has an entry; so a batch that `GetEvents`
returns with `true` has an entry, and `GetEvents` on a mailbox with an entry
returns `true` with the whole mailbox. -/
theorem flag_iff_mailbox_nonempty (r : TriggerHandler) (hr : Reachable r) :
    (r.hasEvents = true ↔ ∃ k, (r.events k).isSome = true)
      ∧ (∀ m, r.GetEvents.2 = (true, some m) → ∃ k, (m k).isSome = true)
      ∧ ((∃ k, (r.events k).isSome = true) → r.GetEvents.2 = (true, some r.events)) := by
  have hinv := reachable_flag r hr
  refine ⟨hinv, ?_, ?_⟩
  · intro m hm
    have hflag : r.hasEvents = true := by
      unfold TriggerHandler.GetEvents at hm
      cases hf : r.hasEvents with
      | true => rfl
      | false => simp [hf] at hm
    rw [GetEvents_batch r m hm]
    exact hinv.1 hflag
  · intro hsome
    have hflag := hinv.2 hsome
    simp [TriggerHandler.GetEvents, hflag]

theorem flag_iff_mailbox_nonempty_witness :
    (relayedHandler.hasEvents = true ↔ ∃ k, (relayedHandler.events k).isSome = true)
      ∧ ((relayedHandler.GetEvents.1).hasEvents = true
          ↔ ∃ k, ((relayedHandler.GetEvents.1).events k).isSome = true)
      ∧ relayedHandler.GetEvents.2 = (true, some relayedHandler.events) :=
  have hreach : Reachable relayedHandler :=
    Reachable.call _ (GatewayCall.PassEvent (modalEvent "A"))
      (Reachable.call _ (GatewayCall.PassEvent closeModalEvent) Reachable.init)
  ⟨(flag_iff_mailbox_nonempty relayedHandler hreach).1,
   (flag_iff_mailbox_nonempty relayedHandler.GetEvents.1
      (Reachable.getEvents _ hreach)).1,
   (flag_iff_mailbox_nonempty relayedHandler hreach).2.2 ⟨COMPONENT_TUI, rfl⟩⟩

/-! ## Lemmas on the replies of the backend -/

theorem triggerErrorMessage_sent (errorMessage : String) (sent : List (List Event))
    (reply : List Event) (h : reply ∈ triggerErrorMessage errorMessage sent) :
    reply ∈ sent ∨ ReplyComponents reply := by
  simp only [triggerErrorMessage, List.nil_append, List.mem_append, List.mem_singleton] at h
  rcases h with h | h
  · exact Or.inl h
  · right; subst h
    exact Or.inr (Or.inr (Or.inr (Or.inr (Or.inl rfl))))

theorem refreshAwsConfig_sent (ext : External) (s : Server) (profile region : String)
    (sent : List (List Event)) (calls : List ExternalCall) (reply : List Event)
    (h : reply ∈ (s.refreshAwsConfig ext profile region sent calls).2.1) :
    reply ∈ sent ∨ ReplyComponents reply := by
  unfold Server.refreshAwsConfig at h
  cases hload : ext.GetAwsConfigFromProfileConfig profile region with
  | error err =>
    simp only [hload] at h
    exact triggerErrorMessage_sent _ _ _ h
  | ok cfg =>
    simp only [hload] at h
    exact Or.inl h

theorem handleHeaderTrigger_sent (s : Server) (t : Trigger) (reply : List Event)
    (h : reply ∈ (s.handleHeaderTrigger t).sent) : ReplyComponents reply := by
  unfold Server.handleHeaderTrigger at h
  by_cases ha : t.Action = ACTION_GET_AUTH_DATA
  · simp only [ha, if_true] at h
    cases hexp : s.ssoExpired with
    | true =>
      simp only [hexp, if_true, List.nil_append, List.mem_singleton] at h
      subst h
      exact Or.inr (Or.inl rfl)
    | false =>
      simp only [hexp, Bool.false_eq_true, if_false] at h
      cases hcfg : s.config with
      | none => simp [hcfg] at h
      | some cfg =>
        simp only [hcfg, List.nil_append, List.mem_singleton] at h
        subst h
        exact Or.inl rfl
  · simp [ha] at h

theorem handleSwitchProfileView_sent (ext : External) (s : Server) (t : Trigger)
    (reply : List Event) (h : reply ∈ (s.handleSwitchProfileView ext t).sent) :
    ReplyComponents reply := by
  unfold Server.handleSwitchProfileView at h
  by_cases ha : t.Action = ACTION_CHANGE_PROFILE
  · simp only [ha, if_true] at h
    cases hdata : t.Data with
    | changeProfileData profileData =>
      simp only [hdata] at h
      cases hcfg : s.config with
      | none => simp [hcfg] at h
      | some cfg =>
        simp only [hcfg] at h
        have href := refreshAwsConfig_sent ext s profileData.Profile cfg.Region [] []
        generalize s.refreshAwsConfig ext profileData.Profile cfg.Region [] [] = res at h href
        obtain ⟨s1, sent1, calls1⟩ := res
        simp only at h href
        cases hcfg1 : s1.config with
        | none =>
          simp only [hcfg1] at h
          rcases href reply h with h0 | h0
          · simp at h0
          · exact h0
        | some cfg1 =>
          simp only [hcfg1, List.nil_append, List.mem_append, List.mem_singleton] at h
          rcases h with h | h
          · rcases href reply h with h0 | h0
            · simp at h0
            · exact h0
          · subst h
            exact Or.inr (Or.inr (Or.inl rfl))
    | _ => simp [hdata] at h
  · simp [ha] at h

theorem handleRefreshSSO_sent (ext : External) (s : Server) (t : Trigger)
    (reply : List Event) (h : reply ∈ (s.handleRefreshSSO ext t).sent) :
    ReplyComponents reply := by
  unfold Server.handleRefreshSSO at h
  by_cases ha : t.Action = ACTION_REAUTHENTICATE_SSO
  · simp only [ha, if_true] at h
    cases hdata : t.Data with
    | reauthenticateSSOData refreshData =>
      simp only [hdata] at h
      cases hlogin : ext.ExecAwsSSOLogin refreshData.Profile with
      | some err =>
        simp only [hlogin] at h
        rcases triggerErrorMessage_sent _ _ _ h with h0 | h0
        · simp at h0
        · exact h0
      | none =>
        simp only [hlogin] at h
        have href := refreshAwsConfig_sent ext s refreshData.Profile
          (match s.config with
            | some config => config.Region
            | none => "") [] [ExternalCall.ExecAwsSSOLogin refreshData.Profile]
        generalize s.refreshAwsConfig ext refreshData.Profile
          (match s.config with
            | some config => config.Region
            | none => "") [] [ExternalCall.ExecAwsSSOLogin refreshData.Profile] = res at h href
        obtain ⟨s1, sent1, calls1⟩ := res
        simp only at h href
        cases hcfg1 : s1.config with
        | none =>
          simp only [hcfg1] at h
          rcases href reply h with h0 | h0
          · simp at h0
          · exact h0
        | some cfg1 =>
          simp only [hcfg1, List.nil_append, List.mem_append, List.mem_singleton] at h
          rcases h with h | h
          · rcases href reply h with h0 | h0
            · simp at h0
            · exact h0
          · subst h
            exact Or.inr (Or.inr (Or.inr (Or.inl rfl)))
    | _ => simp [hdata] at h
  · simp [ha] at h

/-- Every list that `handleTrigger` sends has one of the six Component lists. -/
theorem handleTrigger_sent (ext : External) (s : Server) (t : Trigger)
    (reply : List Event) (h : reply ∈ (s.handleTrigger ext t).sent) :
    ReplyComponents reply := by
  unfold Server.handleTrigger at h
  by_cases h1 : t.Component = COMPONENT_HEADER
  · rw [if_pos h1] at h
    exact handleHeaderTrigger_sent s t reply h
  · by_cases h2 : t.Component = COMPONENT_CHANGE_PROFILE
    · rw [if_neg h1, if_pos h2] at h
      exact handleSwitchProfileView_sent ext s t reply h
    · by_cases h3 : t.Component = COMPONENT_REFRESH_SSO
      · rw [if_neg h1, if_neg h2, if_pos h3] at h
        exact handleRefreshSSO_sent ext s t reply h
      · by_cases h4 : t.Component = COMPONENT_QUIT
        · rw [if_neg h1, if_neg h2, if_neg h3, if_pos h4] at h
          simp only [List.nil_append, List.mem_singleton] at h
          subst h
          exact Or.inr (Or.inr (Or.inr (Or.inr (Or.inr rfl))))
        · rw [if_neg h1, if_neg h2, if_neg h3, if_neg h4] at h
          simp at h

theorem ReplyComponents_nodup (reply : List Event) (h : ReplyComponents reply) :
    (reply.map Event.Component).Nodup := by
  rcases h with h | h | h | h | h | h <;> rw [h] <;> decide

/-- With pairwise distinct Components every merged event stays in its slot. -/
theorem foldl_routeEvent_mem_nodup (es : List Event) (r : TriggerHandler)
    (hnd : (es.map Event.Component).Nodup) (e : Event) (he : e ∈ es) :
    (es.foldl TriggerHandler.routeEvent r).events e.Component = some e := by
  obtain ⟨before, after, hsplit⟩ := List.append_of_mem he
  subst hsplit
  have hafter : ∀ e1 ∈ after, e1.Component ≠ e.Component := by
    intro e1 he1 heq
    rw [List.map_append, List.map_cons] at hnd
    have h2 := (List.nodup_cons.1 (List.nodup_append.1 hnd).2.1).1
    exact h2 (heq ▸ List.mem_map_of_mem Event.Component he1)
  rw [show before ++ e :: after = (before ++ [e]) ++ after by simp, List.foldl_append,
    foldl_routeEvent_other _ _ _ hafter, foldl_routeEvent_append_singleton]
  simp [TriggerHandler.routeEvent]

theorem foldl_routeEvent_isSome (es : List Event) (r : TriggerHandler) (k : String) :
    ((es.foldl TriggerHandler.routeEvent r).events k).isSome = true
      ↔ k ∈ es.map Event.Component ∨ (r.events k).isSome = true := by
  induction es generalizing r with
  | nil => simp
  | cons e es ih =>
    rw [List.foldl_cons, ih, List.map_cons, List.mem_cons]
    by_cases hk : k = e.Component
    · simp [TriggerHandler.routeEvent, hk]
    · simp [TriggerHandler.routeEvent, hk]

theorem routed_single (c : ChanId) (w : World) (reply : List Event)
    (h : w.resp c = some reply) :
    TriggerHandler.RecieveEvents.routed [c] w = reply := by
  simp [TriggerHandler.RecieveEvents.routed, World.tryRecv, h]

/-! ## The replies of the backend in the mailbox -/

/-- C23: every event list that `handleTrigger` sends on a responder has
pairwise distinct Components; when `RecieveEvents` merges such a reply, as the
only one, into an empty mailbox, every event of the reply is in the slot of its
Component afterwards (none is overwritten by another event of the reply) and
the mailbox has as many entries as the reply has events. -/
theorem replies_distinct_components (ext : External) (s : Server) (t : Trigger) :
    ∀ reply ∈ (s.handleTrigger ext t).sent,
      (reply.map Event.Component).Nodup
        ∧ ∀ (r : TriggerHandler) (w : World) (c : ChanId),
            r.responders = [c] → r.events = (fun _ => none) → w.resp c = some reply →
            (∀ e ∈ reply, (r.RecieveEvents w).1.events e.Component = some e)
              ∧ Set.ncard {k | ((r.RecieveEvents w).1.events k).isSome = true}
                  = reply.length := by
  intro reply hreply
  have hnd := ReplyComponents_nodup reply (handleTrigger_sent ext s t reply hreply)
  refine ⟨hnd, ?_⟩
  intro r w c hfifo hempty hresp
  have hevents : (r.RecieveEvents w).1.events
      = (reply.foldl TriggerHandler.routeEvent r).events := by
    rw [RecieveEvents_events, hfifo, routed_single c w reply hresp]
  refine ⟨?_, ?_⟩
  · intro e he
    rw [hevents]
    exact foldl_routeEvent_mem_nodup reply r hnd e he
  · have hkeys : {k | ((r.RecieveEvents w).1.events k).isSome = true}
        = (↑(reply.map Event.Component).toFinset : Set String) := by
      ext k
      rw [hevents]
      simp only [Set.mem_setOf_eq, foldl_routeEvent_isSome, hempty, List.coe_toFinset]
      simp
    rw [hkeys, Set.ncard_coe_Finset, List.toFinset_card_of_nodup hnd, List.length_map]

theorem replies_distinct_components_witness :
    ([showErrorModalEvent,
      modalEvent "Failed to reauthenticate SSO session: exit status 255"].map
        Event.Component).Nodup
      ∧ (pendingHandler.RecieveEvents errorReplyWorld).1.events COMPONENT_TUI
          = some showErrorModalEvent
      ∧ (pendingHandler.RecieveEvents errorReplyWorld).1.events COMPONENT_ERROR_MODAL
          = some (modalEvent "Failed to reauthenticate SSO session: exit status 255")
      ∧ Set.ncard {k | ((pendingHandler.RecieveEvents errorReplyWorld).1.events k).isSome = true}
          = 2 :=
  have h := replies_distinct_components loginFailsExternal loadedServer reauthTrigger
    [showErrorModalEvent, modalEvent "Failed to reauthenticate SSO session: exit status 255"]
    (by decide)
  have hm := h.2 pendingHandler errorReplyWorld 0 rfl rfl rfl
  ⟨h.1, hm.1 showErrorModalEvent (by decide),
   hm.1 (modalEvent "Failed to reauthenticate SSO session: exit status 255") (by decide),
   hm.2⟩

/-! ## Subscriptions after `NewTui` -/

/-- C24: the code at the failing input.  After `NewTui` the names with a
subscription are ChangeProfileView, SetAccessKeysView, SSOReauthenticationModal,
Header and Tui: `NewErrorModal` registers none, so ErrorModal has no
subscription.  After a failed SSO re-login the batch holds the event
`{ErrorModal, showErrorMessage, ..}` of the error pair, and the dispatch
iteration calls `Render` for Header and for Tui only: the ErrorModal event is
passed to no component. -/
theorem error_modal_not_subscribed :
    (∃ tui w, NewTui NewTriggerHandler initWorld = some (tui, w)
        ∧ tui.handle.subscriptions.map Prod.fst
            = [COMPONENT_CHANGE_PROFILE, COMPONENT_SET_ACCESS_KEYS, COMPONENT_REFRESH_SSO,
               COMPONENT_HEADER, COMPONENT_TUI]
        ∧ COMPONENT_ERROR_MODAL ∉ tui.handle.subscriptions.map Prod.fst)
      ∧ (∃ a w, failedLoginState = some (a, w)
        ∧ (a.triggerHandler.RecieveEvents w).1.events COMPONENT_ERROR_MODAL
            = some (modalEvent "Failed to reauthenticate SSO session: exit status 255")
        ∧ (AppHandle.RunEventHandler.iteration a w).rendered
            = [{ component := COMPONENT_HEADER, sub := { name := COMPONENT_HEADER },
                 event := { Component := COMPONENT_HEADER, Action := ACTION_GET_AUTH_DATA,
                            Data := Data.awsConfigData sampleConfig.toAWSConfigData } },
               { component := COMPONENT_TUI, sub := { name := COMPONENT_TUI },
                 event := showErrorModalEvent }]) := by
  refine ⟨⟨_, _, rfl, by decide, by decide⟩, ⟨_, _, rfl, by decide, by decide⟩⟩

end Canopy
